import Mathlib

/-!
# coreboot platform-initialisation glue: FSP-S parameter mapper and AGESA equivalence table

A shallow embedding of

* `src/vendorcode/amd/agesa/f16kb/Proc/CPU/Family/0x16/KB/F16KbEquivalenceTable.c`
  (`GetF16KbMicrocodeEquivalenceTable`), and
* `src/soc/intel/cannonlake/fsp_params.c` (`get_param_value`, `parse_devicetree_param`,
  `parse_devicetree`, `ignore_gbe_ltr`, `platform_fsp_silicon_init_params_cb`),

followed by the properties proved about them. The third source file,
`src/mainboard/intel/icelake_rvp/romstage_fsp_params.c`, holds one function with an empty body
(`mainboard_memory_init_params`) and no property is stated about it. Definitions come first,
then lemmas, then the numbered properties C1 to C10.
-/

/-! ## AGESA family 16h (KB): microcode equivalence table selector

Source: `src/vendorcode/amd/agesa/f16kb/Proc/CPU/Family/0x16/KB/F16KbEquivalenceTable.c`. -/

/-- Modelled from the spec: the `BIT12` macro comes from `AGESA.h`, which is not among the
sources; it is the mask of the single feature bit (bit 12) that gates the selection. -/
def BIT12 : Nat := 0x1000

/-- Modelled from the spec: `LibAmdMsrRead` lives in `amdlib.c`, which is not among the
sources. It reads the model-specific register at `MsrAddress` into a `UINT64`; the MSR file is
the map `msrs`, and the standard header plays no part in the value read. -/
def LibAmdMsrRead {H : Type} (msrs : Nat → Nat) (MsrAddress : Nat) (_StdHeader : H) : Nat :=
  msrs MsrAddress % 2 ^ 64

/-- The ROM table `stu1[]` of `UINT16` words. -/
def stu1 : List Nat := [0x7001, 0x7001, 0x7000, 0x7000]

/-- The value of `sizeof (UINT16)`, in bytes. -/
def sizeof_UINT16 : Nat := 2

/-- The value of `sizeof (stu1)`, in bytes. -/
def sizeof_stu1 : Nat := sizeof_UINT16 * stu1.length

/-- A `CONST VOID *` as the selector sees it: either whatever address the variable of the caller
held, or the address of a ROM table, represented by the words of the table. -/
inductive ConstVoidPtr where
  | prior (address : Nat)
  | rom (table : List Nat)
deriving DecidableEq, Repr

/-- The two `OUT` locations of `GetF16KbMicrocodeEquivalenceTable`. -/
structure EquivalenceTableOut where
  KbEquivalenceTablePtr : ConstVoidPtr
  NumberOfElements : Nat
deriving DecidableEq, Repr

/-- `GetF16KbMicrocodeEquivalenceTable`: read MSR `0xC0011029`; when bit 12 is clear do nothing,
otherwise store the number of two-word entries of `stu1` (into a `UINT8`) and the address of
`stu1`. -/
def GetF16KbMicrocodeEquivalenceTable {S H : Type} (msrs : Nat → Nat)
    (_FamilySpecificServices : S) (out : EquivalenceTableOut) (StdHeader : H) :
    EquivalenceTableOut :=
  let MsrDeCfg := LibAmdMsrRead msrs 0xC0011029 StdHeader
  if MsrDeCfg &&& BIT12 = 0 then
    out
  else
    { KbEquivalenceTablePtr := ConstVoidPtr.rom stu1,
      NumberOfElements := ((sizeof_stu1 / sizeof_UINT16) / 2) % 256 }

/-- An MSR file in which only bit 12 of `0xC0011029` is set. -/
def msrsBit12 : Nat → Nat := fun a => if a = 0xC0011029 then 0x1000 else 0

/-- An MSR file in which every bit of `0xC0011029` except bit 12 is set. -/
def msrsAllButBit12 : Nat → Nat := fun a => if a = 0xC0011029 then 0xFFFFFFFFFFFFEFFF else 0

/-- Some prior contents of the two output locations. -/
def priorOut : EquivalenceTableOut :=
  { KbEquivalenceTablePtr := ConstVoidPtr.prior 0xDEAD, NumberOfElements := 77 }

/-! ## Cannon Lake: FSP-S parameter mapper

Source: `src/soc/intel/cannonlake/fsp_params.c`.

Conventions of the embedding.
* C integers are natural numbers. Where the source file itself fixes a width (the `uint8_t`
  result of `get_param_value`, the `uint8_t` local of `ignore_gbe_ltr`) the reduction modulo
  `2 ^ 8` is written out. The widths of the UPD and `config_t` members are declared in headers
  that are not among the sources; a plain copy `params->X = config->X` is a plain copy here, and
  the one computed store, `PsysPmax`, reduces modulo `2 ^ PsysPmax_bits`.
* C arrays are maps from the index to the element; the element counts that the source takes
  with `ARRAY_SIZE` and `sizeof` are constants of the platform.
* `printk` has no effect on the state that is modelled.
* A dereference of a `NULL` device pointer, and a read past the end of `serial_io_dev`, make the
  function return `none`. -/

/-- Everything the source file takes from headers, Kconfig and other translation units that are
not among the sources: device numbers, enum values, register offsets, array sizes, and the
functions it calls but does not define. -/
structure Platform where
  PCH_DEVFN_I2C0 : Nat
  PCH_DEVFN_I2C1 : Nat
  PCH_DEVFN_I2C2 : Nat
  PCH_DEVFN_I2C3 : Nat
  PCH_DEVFN_I2C4 : Nat
  PCH_DEVFN_I2C5 : Nat
  PCH_DEVFN_GSPI0 : Nat
  PCH_DEVFN_GSPI1 : Nat
  PCH_DEVFN_GSPI2 : Nat
  PCH_DEVFN_UART0 : Nat
  PCH_DEVFN_UART1 : Nat
  PCH_DEVFN_UART2 : Nat
  PCH_DEVFN_SATA : Nat
  PCH_DEVFN_GBE : Nat
  PCH_DEVFN_USBOTG : Nat
  PCH_DEVFN_CNViWIFI : Nat
  PCH_DEVFN_EMMC : Nat
  PCH_DEVFN_SDCARD : Nat
  PCH_DEVFN_UFS : Nat
  -- Values of the serial IO mode enum.
  PchSerialIoNotInitialized : Nat
  PchSerialIoDisabled : Nat
  PchSerialIoPci : Nat
  PchSerialIoMax : Nat
  -- Kconfig switches and values.
  CONFIG_SOC_INTEL_COMETLAKE : Bool
  CONFIG_SOC_INTEL_I2C_DEV_MAX : Nat
  CONFIG_SOC_INTEL_COMMON_BLOCK_GSPI_MAX : Nat
  SOC_INTEL_CML_UART_DEV_MAX : Nat
  CONFIG_UART_FOR_CONSOLE : Nat
  CONFIG_MB_HAS_ACTIVE_HIGH_SD_PWR_ENABLE : Bool
  -- PMC register offset and bit mask used by `ignore_gbe_ltr`.
  LTR_IGN : Nat
  IGN_GBE : Nat
  PCIE_CLK_NOTUSED : Nat
  -- Number of bits of the UPD member `PsysPmax`.
  PsysPmax_bits : Nat
  -- Element counts of the arrays whose size the source takes.
  size_Usb2OverCurrentPin : Nat
  size_Usb3OverCurrentPin : Nat
  size_SataPortsEnable : Nat
  size_SataPortsDevSlp : Nat
  size_PcieRpPmSci : Nat
  size_usb2_ports : Nat
  size_usb3_ports : Nat
  size_PcieClkSrcUsage : Nat
  size_PcieClkSrcClkReq : Nat
  size_PcieRpLtrEnable : Nat
  size_PcieRpHotPlug : Nat
  size_domain_vr_config : Nat

/-- One entry of `config->usb2_ports`. -/
structure usb2_port_config where
  enable : Nat
  ocpin : Nat
  tx_bias : Nat
  tx_emp_enable : Nat
  pre_emp_bias : Nat
  pre_emp_bit : Nat

/-- One entry of `config->usb3_ports`. -/
structure usb3_port_config where
  enable : Nat
  ocpin : Nat
  tx_de_emp : Nat
  tx_downscale_amp : Nat

/-- One entry of `config->domain_vr_config`; the record is declared outside the sources and is
only handed on to `fill_vr_domain_config`, so it is kept as the list of its member values. -/
abbrev vr_config := List Nat

/-- The members of the devicetree configuration record `config_t` that the source file reads. -/
structure config_t where
  SerialIoDevMode : Nat → Nat
  psys_pmax : Nat
  SataMode : Nat
  SataSalpSupport : Nat
  SataPortsEnable : Nat → Nat
  SataPortsDevSlp : Nat → Nat
  s0ix_enable : Nat
  PchHdaDspEnable : Nat
  PchHdaAudioLinkHda : Nat
  PchHdaAudioLinkDmic0 : Nat
  PchHdaAudioLinkDmic1 : Nat
  PchHdaAudioLinkSsp0 : Nat
  PchHdaAudioLinkSsp1 : Nat
  PchHdaAudioLinkSsp2 : Nat
  PchHdaAudioLinkSndw1 : Nat
  PchHdaAudioLinkSndw2 : Nat
  PchHdaAudioLinkSndw3 : Nat
  PchHdaAudioLinkSndw4 : Nat
  DdiPortEdp : Nat
  DdiPortBHpd : Nat
  DdiPortCHpd : Nat
  DdiPortDHpd : Nat
  DdiPortFHpd : Nat
  DdiPortBDdc : Nat
  DdiPortCDdc : Nat
  DdiPortDDdc : Nat
  DdiPortFDdc : Nat
  usb2_ports : Nat → usb2_port_config
  usb3_ports : Nat → usb3_port_config
  PcieClkSrcUsage : Nat → Nat
  PcieClkSrcClkReq : Nat → Nat
  PcieRpLtrEnable : Nat → Nat
  PcieRpHotPlug : Nat → Nat
  ScsEmmcHs400Enabled : Nat
  EmmcHs400DllNeed : Nat
  EmmcHs400RxStrobeDll1 : Nat
  EmmcHs400TxDataDll : Nat
  Heci3Enabled : Nat
  Device4Enable : Nat
  domain_vr_config : Nat → vr_config
  AcousticNoiseMitigation : Nat
  SlowSlewRateForIa : Nat
  SlowSlewRateForGt : Nat
  SlowSlewRateForSa : Nat
  SlowSlewRateForFivr : Nat
  FastPkgCRampDisableIa : Nat
  FastPkgCRampDisableGt : Nat
  FastPkgCRampDisableSa : Nat
  FastPkgCRampDisableFivr : Nat
  dmipwroptimize : Nat
  satapwroptimize : Nat
  PchPmSlpS3MinAssert : Nat
  PchPmSlpS4MinAssert : Nat
  PchPmSlpSusMinAssert : Nat
  PchPmSlpAMinAssert : Nat
  tcc_offset : Nat
  PchUnlockGpioPads : Nat

/-- Names of the scalar members of the UPD block `FSP_S_CONFIG` that the source file assigns,
under both settings of `CONFIG_SOC_INTEL_COMETLAKE`. -/
inductive UpdMember where
  | GraphicsConfigPtr | PchLockDownRtcMemoryLock | SataEnable | SataMode | SataSalpSupport
  | PchLanEnable | SlpS0WithGbeSupport | PchPmSlpS0VmRuntimeControl | PchPmSlpS0Vm070VSupport
  | PchPmSlpS0Vm075VSupport | PchHdaDspEnable | PchHdaAudioLinkHda | PchHdaAudioLinkDmic0
  | PchHdaAudioLinkDmic1 | PchHdaAudioLinkSsp0 | PchHdaAudioLinkSsp1 | PchHdaAudioLinkSsp2
  | PchHdaAudioLinkSndw1 | PchHdaAudioLinkSndw2 | PchHdaAudioLinkSndw3 | PchHdaAudioLinkSndw4
  | DdiPortEdp | DdiPortBHpd | DdiPortCHpd | DdiPortDHpd | DdiPortFHpd | DdiPortBDdc
  | DdiPortCDdc | DdiPortDDdc | DdiPortFDdc | PchPmSlpS0Enable | XdciEnable
  | SerialIoDebugUartNumber | CnviMode | PchCnviMode | ScsEmmcEnabled | ScsEmmcHs400Enabled
  | PchScsEmmcHs400DllDataValid | PchScsEmmcHs400RxStrobeDll1 | PchScsEmmcHs400TxDataDll
  | ScsSdCardEnabled | SdCardPowerEnableActiveHigh | ScsUfsEnabled | Heci3Enabled
  | Device4Enable | AcousticNoiseMitigation | SlowSlewRateForIa | SlowSlewRateForGt
  | SlowSlewRateForSa | SlowSlewRateForFivr | FastPkgCRampDisableIa | FastPkgCRampDisableGt
  | FastPkgCRampDisableSa | FastPkgCRampDisableFivr | PchPwrOptEnable | SataPwrOptEnable
  | PchPmSlpS3MinAssert | PchPmSlpS4MinAssert | PchPmSlpSusMinAssert | PchPmSlpAMinAssert
deriving DecidableEq, Repr

/-- Names of the array members of `FSP_S_CONFIG` that the source file assigns. -/
inductive UpdArray where
  | SerialIoDevMode | SerialIoI2cMode | SerialIoSpiMode | SerialIoUartMode | Usb2OverCurrentPin
  | Usb3OverCurrentPin | SataPortsEnable | SataPortsDevSlp | PcieRpPmSci | PortUsb20Enable
  | Usb2AfePetxiset | Usb2AfeTxiset | Usb2AfePredeemp | Usb2AfePehalfbit | PortUsb30Enable
  | Usb3HsioTxDeEmphEnable | Usb3HsioTxDeEmph | Usb3HsioTxDownscaleAmpEnable
  | Usb3HsioTxDownscaleAmp | PcieClkSrcUsage | PcieClkSrcClkReq | PcieRpLtrEnable
  | PcieRpHotPlug
deriving DecidableEq, Repr

/-- The UPD block `FSP_S_CONFIG` as a record indexed by member name: `field m` is the scalar
member `m`, `array m i` is element `i` of the array member `m`, and `other` holds every member
that the source file never assigns, by offset. -/
structure FSP_S_CONFIG where
  field : UpdMember → Nat
  array : UpdArray → Nat → Nat
  other : Nat → Nat

/-- The assignment `params->m = v`. -/
def FSP_S_CONFIG.set (params : FSP_S_CONFIG) (m : UpdMember) (v : Nat) : FSP_S_CONFIG :=
  { params with field := Function.update params.field m v }

/-- The assignment `params->m[i] = v`. -/
def FSP_S_CONFIG.setElem (params : FSP_S_CONFIG) (m : UpdArray) (i v : Nat) : FSP_S_CONFIG :=
  { params with array := Function.update params.array m (Function.update (params.array m) i v) }

/-- The whole array member `m` replaced, as `memcpy` and `memset` into `params->m` do. -/
def FSP_S_CONFIG.setArray (params : FSP_S_CONFIG) (m : UpdArray) (a : Nat → Nat) :
    FSP_S_CONFIG :=
  { params with array := Function.update params.array m a }

/-- The members of the UPD block `FSP_S_TEST_CONFIG` that the source file assigns. -/
structure FSP_S_TEST_CONFIG where
  PsysPmax : Nat
  TccActivationOffset : Nat
  PchUnlockGpioPads : Nat
  other : Nat → Nat

/-- The UPD region handed to the callback. -/
structure FSPS_UPD where
  FspsConfig : FSP_S_CONFIG
  FspsTestConfig : FSP_S_TEST_CONFIG

/-- A node of the device tree: the member `enabled` of `struct device`. -/
structure device where
  enabled : Nat

/-- The functions the source file calls but does not define. -/
structure Callees where
  -- Address returned by `vbt_get()`.
  vbt_get : Nat
  -- Base address returned by `pmc_mmio_regs()`.
  pmc_mmio_regs : Nat
  -- Result of `xdci_can_enable()`.
  xdci_can_enable : Bool
  -- The board hook; the weak default of the source file only prints.
  mainboard_silicon_init_params : FSP_S_CONFIG → FSP_S_CONFIG
  -- Effect of `fill_vr_domain_config(params, domain, &config->domain_vr_config[domain])`.
  fill_vr_domain_config : FSP_S_CONFIG → Nat → vr_config → FSP_S_CONFIG

/-- The state outside the UPD block that the callback reads and writes. `SA_DEV_ROOT` is the
result of the macro of that name (a device pointer, `none` for `NULL`) reduced to the only member
read through it, `chip_info`; `devices bus devfn` is what `dev_find_slot` finds; `mmio` is the
byte-addressed register space reached through `read8` and `write8`. -/
structure World where
  SA_DEV_ROOT : Option config_t
  devices : Nat → Nat → Option device
  mmio : Nat → Nat

/-- Modelled from the spec: `dev_find_slot` is defined outside the sources; it queries the
device table for the device at `(bus, devfn)` and yields `none` (for `NULL`) when there is
none. -/
def dev_find_slot (w : World) (bus devfn : Nat) : Option device :=
  w.devices bus devfn

/-- Modelled from the spec: `read8` is defined outside the sources; it is a synchronous read of
the byte register at `addr`, without side effect. -/
def read8 (mmio : Nat → Nat) (addr : Nat) : Nat :=
  mmio addr % 256

/-- Modelled from the spec: `write8` is defined outside the sources; it writes the byte
`value` to the register at `addr`. -/
def write8 (mmio : Nat → Nat) (addr value : Nat) : Nat → Nat :=
  Function.update mmio addr (value % 256)

/-- Modelled from the spec: `memcpy(dst, src, n)` of the C library, over whole elements: the
first `n` elements of `dst` become those of `src`. -/
def memcpy (dst src : Nat → Nat) (n : Nat) : Nat → Nat :=
  fun i => if i < n then src i else dst i

/-- Modelled from the spec: `memset(dst, c, n)` of the C library, over whole elements. -/
def memset (dst : Nat → Nat) (c n : Nat) : Nat → Nat :=
  fun i => if i < n then c else dst i

/-- The loop `for (i = 0; i < n; i++) body`, on the state `s`. -/
def forLoop {σ : Type} (body : Nat → σ → σ) : Nat → σ → σ
  | 0, s => s
  | n + 1, s => body n (forLoop body n s)

/-- The same loop with a body that can fail; the first failure ends the run. -/
def forLoopM {σ : Type} (body : Nat → σ → Option σ) : Nat → σ → Option σ
  | 0, s => some s
  | n + 1, s => (forLoopM body n s).bind (body n)

/-- Conversion of an `int` to `uint8_t`. -/
def toUint8 (z : Int) : Nat :=
  (z % 256).toNat

/-- The table `serial_io_dev[]`. -/
def serial_io_dev (P : Platform) : List Nat :=
  [P.PCH_DEVFN_I2C0, P.PCH_DEVFN_I2C1, P.PCH_DEVFN_I2C2, P.PCH_DEVFN_I2C3, P.PCH_DEVFN_I2C4,
   P.PCH_DEVFN_I2C5, P.PCH_DEVFN_GSPI0, P.PCH_DEVFN_GSPI1, P.PCH_DEVFN_GSPI2, P.PCH_DEVFN_UART0,
   P.PCH_DEVFN_UART1, P.PCH_DEVFN_UART2]

/-- The macro `PCH_SERIAL_IO_INDEX(x)`, that is `((x) - 1)` in `int` arithmetic. -/
def PCH_SERIAL_IO_INDEX (x : Int) : Int :=
  x - 1

/-- `get_param_value(config, dev_offset)`. -/
def get_param_value (P : Platform) (w : World) (config : config_t) (dev_offset : Nat) :
    Option Nat :=
  match (serial_io_dev P)[dev_offset]? with
  | none => none
  | some devfn =>
    match dev_find_slot w 0 devfn with
    | none => some (toUint8 (PCH_SERIAL_IO_INDEX P.PchSerialIoDisabled))
    | some dev =>
      if dev.enabled = 0 then
        some (toUint8 (PCH_SERIAL_IO_INDEX P.PchSerialIoDisabled))
      else if config.SerialIoDevMode dev_offset ≥ P.PchSerialIoMax ∨
          config.SerialIoDevMode dev_offset = P.PchSerialIoNotInitialized then
        some (toUint8 (PCH_SERIAL_IO_INDEX P.PchSerialIoPci))
      else
        some (toUint8 (PCH_SERIAL_IO_INDEX (config.SerialIoDevMode dev_offset)))

/-- Body of the first loop of the Comet Lake `parse_devicetree_param`; the state is the block
and `dev_offset`. -/
def i2c_mode_step (P : Platform) (w : World) (config : config_t) (i : Nat)
    (s : FSP_S_CONFIG × Nat) : Option (FSP_S_CONFIG × Nat) :=
  (get_param_value P w config s.2).map fun v =>
    (s.1.setElem .SerialIoI2cMode i v, s.2 + 1)

/-- Body of the second loop of the Comet Lake `parse_devicetree_param`. -/
def spi_mode_step (P : Platform) (w : World) (config : config_t) (i : Nat)
    (s : FSP_S_CONFIG × Nat) : Option (FSP_S_CONFIG × Nat) :=
  (get_param_value P w config s.2).map fun v =>
    (s.1.setElem .SerialIoSpiMode i v, s.2 + 1)

/-- Body of the third loop of the Comet Lake `parse_devicetree_param`. -/
def uart_mode_step (P : Platform) (w : World) (config : config_t) (i : Nat)
    (s : FSP_S_CONFIG × Nat) : Option (FSP_S_CONFIG × Nat) :=
  (get_param_value P w config s.2).map fun v =>
    (s.1.setElem .SerialIoUartMode i v, s.2 + 1)

/-- Body of the loop of the other `parse_devicetree_param`. -/
def dev_mode_step (P : Platform) (w : World) (config : config_t) (i : Nat)
    (params : FSP_S_CONFIG) : Option FSP_S_CONFIG :=
  (get_param_value P w config i).map fun v =>
    params.setElem .SerialIoDevMode i v

/-- `parse_devicetree_param(config, params)`, in the variant that `CONFIG(SOC_INTEL_COMETLAKE)`
selects. -/
def parse_devicetree_param (P : Platform) (w : World) (config : config_t)
    (params : FSP_S_CONFIG) : Option FSP_S_CONFIG :=
  if P.CONFIG_SOC_INTEL_COMETLAKE then
    ((((forLoopM (i2c_mode_step P w config) P.CONFIG_SOC_INTEL_I2C_DEV_MAX (params, 0)).bind
      (forLoopM (spi_mode_step P w config) P.CONFIG_SOC_INTEL_COMMON_BLOCK_GSPI_MAX)).bind
      (forLoopM (uart_mode_step P w config) P.SOC_INTEL_CML_UART_DEV_MAX))).map Prod.fst
  else
    forLoopM (dev_mode_step P w config) (serial_io_dev P).length params

/-- `parse_devicetree(params)`. -/
def parse_devicetree (P : Platform) (w : World) (params : FSP_S_CONFIG) : Option FSP_S_CONFIG :=
  match w.SA_DEV_ROOT with
  | none => some params
  | some config => parse_devicetree_param P w config params

/-- `ignore_gbe_ltr()`: read-modify-write of the PMC register `LTR_IGN`. -/
def ignore_gbe_ltr (P : Platform) (E : Callees) (mmio : Nat → Nat) : Nat → Nat :=
  let pmcbase := E.pmc_mmio_regs
  let reg8 := read8 mmio (pmcbase + P.LTR_IGN)
  let reg8 := (reg8 ||| P.IGN_GBE) % 256
  write8 mmio (pmcbase + P.LTR_IGN) reg8

/-- Body of the loop over `config->usb2_ports`. -/
def usb2_port_step (config : config_t) (i : Nat) (params : FSP_S_CONFIG) : FSP_S_CONFIG :=
  let params := params.setElem .PortUsb20Enable i (config.usb2_ports i).enable
  let params := params.setElem .Usb2OverCurrentPin i (config.usb2_ports i).ocpin
  let params := params.setElem .Usb2AfePetxiset i (config.usb2_ports i).pre_emp_bias
  let params := params.setElem .Usb2AfeTxiset i (config.usb2_ports i).tx_bias
  let params := params.setElem .Usb2AfePredeemp i (config.usb2_ports i).tx_emp_enable
  params.setElem .Usb2AfePehalfbit i (config.usb2_ports i).pre_emp_bit

/-- Body of the loop over `config->usb3_ports`. -/
def usb3_port_step (config : config_t) (i : Nat) (params : FSP_S_CONFIG) : FSP_S_CONFIG :=
  let params := params.setElem .PortUsb30Enable i (config.usb3_ports i).enable
  let params := params.setElem .Usb3OverCurrentPin i (config.usb3_ports i).ocpin
  let params :=
    if (config.usb3_ports i).tx_de_emp ≠ 0 then
      (params.setElem .Usb3HsioTxDeEmphEnable i 1).setElem .Usb3HsioTxDeEmph i
        (config.usb3_ports i).tx_de_emp
    else params
  if (config.usb3_ports i).tx_downscale_amp ≠ 0 then
    (params.setElem .Usb3HsioTxDownscaleAmpEnable i 1).setElem .Usb3HsioTxDownscaleAmp i
      (config.usb3_ports i).tx_downscale_amp
  else params

/-- Body of the loop that rewrites `config->PcieClkSrcUsage`. -/
def clk_src_usage_step (P : Platform) (i : Nat) (config : config_t) : config_t :=
  if config.PcieClkSrcUsage i = 0 then
    { config with PcieClkSrcUsage := Function.update config.PcieClkSrcUsage i P.PCIE_CLK_NOTUSED }
  else config

/-- Body of the loop over `config->domain_vr_config`. -/
def vr_domain_step (E : Callees) (config : config_t) (i : Nat) (params : FSP_S_CONFIG) :
    FSP_S_CONFIG :=
  E.fill_vr_domain_config params i (config.domain_vr_config i)

/-- Assignment through a device pointer obtained from `dev_find_slot(bus, devfn)`: the node of
the tree at that slot takes the new contents. -/
def write_device (w : World) (bus devfn : Nat) (dev : device) : World :=
  { w with
    devices :=
      (Function.update w.devices bus (Function.update (w.devices bus) devfn (some dev))) }

/-- Lines 131 to 145 of `platform_fsp_silicon_init_params_cb`: `parse_devicetree`, the VBT
pointer, the over-current pins set to 0, and the call of `mainboard_silicon_init_params`. The
result is the contents of `FspsConfig` right after that call. -/
def params_after_mainboard (P : Platform) (E : Callees) (w : World) (supd : FSPS_UPD) :
    Option FSP_S_CONFIG :=
  -- Parse device tree and enable/disable devices
  match parse_devicetree P w supd.FspsConfig with
  | none => none
  | some params =>
    -- Load VBT before devicetree-specific config.
    let params := params.set .GraphicsConfigPtr E.vbt_get
    -- Set USB OC pin to 0 first
    let params := forLoop (fun i p => p.setElem .Usb2OverCurrentPin i 0)
      P.size_Usb2OverCurrentPin params
    let params := forLoop (fun i p => p.setElem .Usb3OverCurrentPin i 0)
      P.size_Usb3OverCurrentPin params
    some (E.mainboard_silicon_init_params params)

/-- Lines 147 to 152: set `PsysPmax` if it is available from the devicetree; the value is in
units of 1/8 Watt. -/
def psys_pmax_block (P : Platform) (config : config_t) (tconfig : FSP_S_TEST_CONFIG) :
    FSP_S_TEST_CONFIG :=
  if config.psys_pmax ≠ 0 then
    { tconfig with PsysPmax := (config.psys_pmax * 8) % 2 ^ P.PsysPmax_bits }
  else tconfig

/-- Lines 157 to 169: SATA. -/
def sata_block (P : Platform) (w : World) (config : config_t) (params : FSP_S_CONFIG) :
    FSP_S_CONFIG :=
  match dev_find_slot w 0 P.PCH_DEVFN_SATA with
  | none => params.set .SataEnable 0
  | some dev =>
    let params := params.set .SataEnable dev.enabled
    let params := params.set .SataMode config.SataMode
    let params := params.set .SataSalpSupport config.SataSalpSupport
    let params := params.setArray .SataPortsEnable
      (memcpy (params.array .SataPortsEnable) config.SataPortsEnable P.size_SataPortsEnable)
    params.setArray .SataPortsDevSlp
      (memcpy (params.array .SataPortsDevSlp) config.SataPortsDevSlp P.size_SataPortsDevSlp)

/-- Lines 171 to 184: Lan. The result is the register space and the block. -/
def lan_block (P : Platform) (E : Callees) (w : World) (config : config_t)
    (params : FSP_S_CONFIG) : (Nat → Nat) × FSP_S_CONFIG :=
  match dev_find_slot w 0 P.PCH_DEVFN_GBE with
  | none => (w.mmio, params.set .PchLanEnable 0)
  | some dev =>
    let params := params.set .PchLanEnable dev.enabled
    if config.s0ix_enable ≠ 0 then
      let params := params.set .SlpS0WithGbeSupport 1
      let params := params.set .PchPmSlpS0VmRuntimeControl 0
      let params := params.set .PchPmSlpS0Vm070VSupport 0
      let params := params.set .PchPmSlpS0Vm075VSupport 0
      (ignore_gbe_ltr P E w.mmio, params)
    else (w.mmio, params)

/-- Lines 186 to 218: audio, eDP device, HPD and DDC of the DDI ports, S0ix, legacy PME. -/
def audio_display_block (P : Platform) (config : config_t) (params : FSP_S_CONFIG) :
    FSP_S_CONFIG :=
  -- Audio
  let params := params.set .PchHdaDspEnable config.PchHdaDspEnable
  let params := params.set .PchHdaAudioLinkHda config.PchHdaAudioLinkHda
  let params := params.set .PchHdaAudioLinkDmic0 config.PchHdaAudioLinkDmic0
  let params := params.set .PchHdaAudioLinkDmic1 config.PchHdaAudioLinkDmic1
  let params := params.set .PchHdaAudioLinkSsp0 config.PchHdaAudioLinkSsp0
  let params := params.set .PchHdaAudioLinkSsp1 config.PchHdaAudioLinkSsp1
  let params := params.set .PchHdaAudioLinkSsp2 config.PchHdaAudioLinkSsp2
  let params := params.set .PchHdaAudioLinkSndw1 config.PchHdaAudioLinkSndw1
  let params := params.set .PchHdaAudioLinkSndw2 config.PchHdaAudioLinkSndw2
  let params := params.set .PchHdaAudioLinkSndw3 config.PchHdaAudioLinkSndw3
  let params := params.set .PchHdaAudioLinkSndw4 config.PchHdaAudioLinkSndw4
  -- eDP device
  let params := params.set .DdiPortEdp config.DdiPortEdp
  -- HPD of DDI ports
  let params := params.set .DdiPortBHpd config.DdiPortBHpd
  let params := params.set .DdiPortCHpd config.DdiPortCHpd
  let params := params.set .DdiPortDHpd config.DdiPortDHpd
  let params := params.set .DdiPortFHpd config.DdiPortFHpd
  -- DDC of DDI ports
  let params := params.set .DdiPortBDdc config.DdiPortBDdc
  let params := params.set .DdiPortCDdc config.DdiPortCDdc
  let params := params.set .DdiPortDDdc config.DdiPortDDdc
  let params := params.set .DdiPortFDdc config.DdiPortFDdc
  -- S0ix
  let params := params.set .PchPmSlpS0Enable config.s0ix_enable
  -- disable Legacy PME
  params.setArray .PcieRpPmSci (memset (params.array .PcieRpPmSci) 0 P.size_PcieRpPmSci)

/-- Lines 246 to 253: enable the xDCI controller if enabled in the devicetree and allowed. The
result is the state, in which the device node may have been switched off, and the block. -/
def xdci_block (P : Platform) (E : Callees) (w : World) (params : FSP_S_CONFIG) :
    World × FSP_S_CONFIG :=
  match dev_find_slot w 0 P.PCH_DEVFN_USBOTG with
  | some dev =>
    let dev : device := if E.xdci_can_enable = false then { dev with enabled := 0 } else dev
    (write_device w 0 P.PCH_DEVFN_USBOTG dev, params.set .XdciEnable dev.enabled)
  | none => (w, params.set .XdciEnable 0)

/-- Lines 258 to 270: enable CNVi Wifi if enabled in the devicetree. -/
def cnvi_block (P : Platform) (w : World) (params : FSP_S_CONFIG) : FSP_S_CONFIG :=
  if P.CONFIG_SOC_INTEL_COMETLAKE then
    match dev_find_slot w 0 P.PCH_DEVFN_CNViWIFI with
    | some dev => params.set .CnviMode dev.enabled
    | none => params.set .CnviMode 0
  else
    match dev_find_slot w 0 P.PCH_DEVFN_CNViWIFI with
    | some dev => params.set .PchCnviMode dev.enabled
    | none => params.set .PchCnviMode 0

/-- Lines 271 to 283: PCI Express. The result is the configuration record, whose
`PcieClkSrcUsage` the loop rewrites, and the block. -/
def pcie_block (P : Platform) (config : config_t) (params : FSP_S_CONFIG) :
    config_t × FSP_S_CONFIG :=
  let config : config_t := forLoop (clk_src_usage_step P) P.size_PcieClkSrcUsage config
  let params := params.setArray .PcieClkSrcUsage
    (memcpy (params.array .PcieClkSrcUsage) config.PcieClkSrcUsage P.size_PcieClkSrcUsage)
  let params := params.setArray .PcieClkSrcClkReq
    (memcpy (params.array .PcieClkSrcClkReq) config.PcieClkSrcClkReq P.size_PcieClkSrcClkReq)
  let params := params.setArray .PcieRpLtrEnable
    (memcpy (params.array .PcieRpLtrEnable) config.PcieRpLtrEnable P.size_PcieRpLtrEnable)
  let params := params.setArray .PcieRpHotPlug
    (memcpy (params.array .PcieRpHotPlug) config.PcieRpHotPlug P.size_PcieRpHotPlug)
  (config, params)

/-- Lines 285 to 299: eMMC. -/
def emmc_block (P : Platform) (w : World) (config : config_t) (params : FSP_S_CONFIG) :
    FSP_S_CONFIG :=
  match dev_find_slot w 0 P.PCH_DEVFN_EMMC with
  | none => params.set .ScsEmmcEnabled 0
  | some dev =>
    let params := params.set .ScsEmmcEnabled dev.enabled
    let params := params.set .ScsEmmcHs400Enabled config.ScsEmmcHs400Enabled
    let params := params.set .PchScsEmmcHs400DllDataValid config.EmmcHs400DllNeed
    if config.EmmcHs400DllNeed = 1 then
      let params := params.set .PchScsEmmcHs400RxStrobeDll1 config.EmmcHs400RxStrobeDll1
      params.set .PchScsEmmcHs400TxDataDll config.EmmcHs400TxDataDll
    else params

/-- Lines 301 to 308: SD card. -/
def sdcard_block (P : Platform) (w : World) (params : FSP_S_CONFIG) : FSP_S_CONFIG :=
  match dev_find_slot w 0 P.PCH_DEVFN_SDCARD with
  | none => params.set .ScsSdCardEnabled 0
  | some dev =>
    let params := params.set .ScsSdCardEnabled dev.enabled
    params.set .SdCardPowerEnableActiveHigh
      (if P.CONFIG_MB_HAS_ACTIVE_HIGH_SD_PWR_ENABLE then 1 else 0)

/-- Lines 310 to 314: UFS. -/
def ufs_block (P : Platform) (w : World) (params : FSP_S_CONFIG) : FSP_S_CONFIG :=
  match dev_find_slot w 0 P.PCH_DEVFN_UFS with
  | none => params.set .ScsUfsEnabled 0
  | some dev => params.set .ScsUfsEnabled dev.enabled

/-- Lines 325 to 338: acoustic noise mitigation, power optimizer. -/
def noise_power_block (config : config_t) (params : FSP_S_CONFIG) : FSP_S_CONFIG :=
  -- Acoustic Noise Mitigation
  let params := params.set .AcousticNoiseMitigation config.AcousticNoiseMitigation
  let params := params.set .SlowSlewRateForIa config.SlowSlewRateForIa
  let params := params.set .SlowSlewRateForGt config.SlowSlewRateForGt
  let params := params.set .SlowSlewRateForSa config.SlowSlewRateForSa
  let params := params.set .SlowSlewRateForFivr config.SlowSlewRateForFivr
  let params := params.set .FastPkgCRampDisableIa config.FastPkgCRampDisableIa
  let params := params.set .FastPkgCRampDisableGt config.FastPkgCRampDisableGt
  let params := params.set .FastPkgCRampDisableSa config.FastPkgCRampDisableSa
  let params := params.set .FastPkgCRampDisableFivr config.FastPkgCRampDisableFivr
  -- Power Optimizer
  let params := params.set .PchPwrOptEnable config.dmipwroptimize
  params.set .SataPwrOptEnable config.satapwroptimize

/-- Lines 340 to 348: apply the minimum assertion width settings if non-zero. -/
def min_assert_block (config : config_t) (params : FSP_S_CONFIG) : FSP_S_CONFIG :=
  let params :=
    if config.PchPmSlpS3MinAssert ≠ 0 then
      params.set .PchPmSlpS3MinAssert config.PchPmSlpS3MinAssert
    else params
  let params :=
    if config.PchPmSlpS4MinAssert ≠ 0 then
      params.set .PchPmSlpS4MinAssert config.PchPmSlpS4MinAssert
    else params
  let params :=
    if config.PchPmSlpSusMinAssert ≠ 0 then
      params.set .PchPmSlpSusMinAssert config.PchPmSlpSusMinAssert
    else params
  if config.PchPmSlpAMinAssert ≠ 0 then
    params.set .PchPmSlpAMinAssert config.PchPmSlpAMinAssert
  else params

/-- `platform_fsp_silicon_init_params_cb(supd)`, block by block in the order of the source: the
state and the UPD region it leaves, or `none` when it dereferences the `NULL` root device or
reads past the end of `serial_io_dev`. -/
def platform_fsp_silicon_init_params_cb (P : Platform) (E : Callees) (w : World)
    (supd : FSPS_UPD) : Option (World × FSPS_UPD) :=
  let tconfig := supd.FspsTestConfig
  -- struct device *dev = SA_DEV_ROOT; config_t *config = dev->chip_info;
  match w.SA_DEV_ROOT with
  | none => none
  | some config =>
    match params_after_mainboard P E w supd with
    | none => none
    | some params =>
      let tconfig := psys_pmax_block P config tconfig
      -- Unlock upper 8 bytes of RTC RAM
      let params := params.set .PchLockDownRtcMemoryLock 0
      let params := sata_block P w config params
      let lan := lan_block P E w config params
      let w : World := { w with mmio := lan.1 }
      let params := audio_display_block P config lan.2
      -- USB
      let params := forLoop (usb2_port_step config) P.size_usb2_ports params
      let params := forLoop (usb3_port_step config) P.size_usb3_ports params
      let xdci := xdci_block P E w params
      let w : World := xdci.1
      -- Set Debug serial port
      let params := xdci.2.set .SerialIoDebugUartNumber P.CONFIG_UART_FOR_CONSOLE
      let params := cnvi_block P w params
      let pcie := pcie_block P config params
      let config : config_t := pcie.1
      let params := emmc_block P w config pcie.2
      let params := sdcard_block P w params
      let params := ufs_block P w params
      let params := params.set .Heci3Enabled config.Heci3Enabled
      let params := params.set .Device4Enable config.Device4Enable
      -- VrConfig Settings for 5 domains
      let params := forLoop (vr_domain_step E config) P.size_domain_vr_config params
      let params := noise_power_block config params
      let params := min_assert_block config params
      -- Set TccActivationOffset
      let tconfig : FSP_S_TEST_CONFIG := { tconfig with TccActivationOffset := config.tcc_offset }
      -- Unlock all GPIO pads
      let tconfig : FSP_S_TEST_CONFIG :=
        { tconfig with PchUnlockGpioPads := config.PchUnlockGpioPads }
      some ({ w with SA_DEV_ROOT := some config },
            { FspsConfig := params, FspsTestConfig := tconfig })

/-- The assumption on the helper `fill_vr_domain_config`, whose code is not among the sources:
it writes only members of the block that `fsp_params.c` itself never assigns. -/
def VrFrame (E : Callees) : Prop :=
  ∀ (p : FSP_S_CONFIG) (i : Nat) (c : vr_config),
    ∃ o, E.fill_vr_domain_config p i c = { p with other := o }

/-- The serial IO loops of the Comet Lake `parse_devicetree_param` stay inside
`serial_io_dev`. -/
def SerialIoFits (P : Platform) : Prop :=
  P.CONFIG_SOC_INTEL_COMETLAKE = true →
    P.CONFIG_SOC_INTEL_I2C_DEV_MAX + P.CONFIG_SOC_INTEL_COMMON_BLOCK_GSPI_MAX +
      P.SOC_INTEL_CML_UART_DEV_MAX ≤ (serial_io_dev P).length

instance (P : Platform) : Decidable (SerialIoFits P) := by
  unfold SerialIoFits
  exact inferInstance

/-- The device at `devfn` on bus 0 is absent from the tree, or present with `enabled = 0`. -/
def device_off (w : World) (devfn : Nat) : Prop :=
  dev_find_slot w 0 devfn = none ∨
    ∃ dev, dev_find_slot w 0 devfn = some dev ∧ dev.enabled = 0

/-- The same condition on a device table alone. -/
def device_off_in (devices : Nat → Nat → Option device) (devfn : Nat) : Prop :=
  devices 0 devfn = none ∨ ∃ dev, devices 0 devfn = some dev ∧ dev.enabled = 0

/-- The assumptions on the serial IO mode enum, whose declaration is not among the sources:
`PchSerialIoNotInitialized` is 0, the valid modes start from 1 (as the comment above
`PCH_SERIAL_IO_INDEX` says) and lie below `PchSerialIoMax`, and the enum fits in a byte. -/
def SerialIoEnumOk (P : Platform) : Prop :=
  P.PchSerialIoNotInitialized = 0 ∧
  0 < P.PchSerialIoDisabled ∧ P.PchSerialIoDisabled < P.PchSerialIoMax ∧
  0 < P.PchSerialIoPci ∧ P.PchSerialIoPci < P.PchSerialIoMax ∧
  P.PchSerialIoMax ≤ 256

instance (P : Platform) : Decidable (SerialIoEnumOk P) := by
  unfold SerialIoEnumOk
  exact inferInstance

/-- The element of the block that `parse_devicetree_param` assigns from
`get_param_value(config, k)`, read in `params`: under `CONFIG(SOC_INTEL_COMETLAKE)` the three
loops split the indices between the I2C, SPI and UART mode arrays, and indices past the three
loops are not stored; otherwise it is `SerialIoDevMode[k]`. -/
def serial_io_slot (P : Platform) (params : FSP_S_CONFIG) (k : Nat) : Option Nat :=
  if P.CONFIG_SOC_INTEL_COMETLAKE then
    if k < P.CONFIG_SOC_INTEL_I2C_DEV_MAX then
      some (params.array .SerialIoI2cMode k)
    else if k < P.CONFIG_SOC_INTEL_I2C_DEV_MAX + P.CONFIG_SOC_INTEL_COMMON_BLOCK_GSPI_MAX then
      some (params.array .SerialIoSpiMode (k - P.CONFIG_SOC_INTEL_I2C_DEV_MAX))
    else if k < P.CONFIG_SOC_INTEL_I2C_DEV_MAX + P.CONFIG_SOC_INTEL_COMMON_BLOCK_GSPI_MAX +
        P.SOC_INTEL_CML_UART_DEV_MAX then
      some (params.array .SerialIoUartMode
        (k - P.CONFIG_SOC_INTEL_I2C_DEV_MAX - P.CONFIG_SOC_INTEL_COMMON_BLOCK_GSPI_MAX))
    else none
  else
    some (params.array .SerialIoDevMode k)

/-! ## Concrete inputs -/

/-- A platform in the shape of the Cannon Lake PCH: device numbers `slot * 8 + function`, the
serial IO mode enum counted from 0, sixteen USB2 and ten USB3 ports, sixteen clock sources. -/
def cnl : Platform :=
  { PCH_DEVFN_I2C0 := 0xA8, PCH_DEVFN_I2C1 := 0xA9, PCH_DEVFN_I2C2 := 0xAA,
    PCH_DEVFN_I2C3 := 0xAB, PCH_DEVFN_I2C4 := 0xC8, PCH_DEVFN_I2C5 := 0xC9,
    PCH_DEVFN_GSPI0 := 0xF2, PCH_DEVFN_GSPI1 := 0xF3, PCH_DEVFN_GSPI2 := 0x96,
    PCH_DEVFN_UART0 := 0xF0, PCH_DEVFN_UART1 := 0xF1, PCH_DEVFN_UART2 := 0xCA,
    PCH_DEVFN_SATA := 0xB8, PCH_DEVFN_GBE := 0xFE, PCH_DEVFN_USBOTG := 0xA1,
    PCH_DEVFN_CNViWIFI := 0xA3, PCH_DEVFN_EMMC := 0xD0, PCH_DEVFN_SDCARD := 0xA5,
    PCH_DEVFN_UFS := 0x95,
    PchSerialIoNotInitialized := 0, PchSerialIoDisabled := 1, PchSerialIoPci := 2,
    PchSerialIoMax := 5,
    CONFIG_SOC_INTEL_COMETLAKE := false,
    CONFIG_SOC_INTEL_I2C_DEV_MAX := 6, CONFIG_SOC_INTEL_COMMON_BLOCK_GSPI_MAX := 3,
    SOC_INTEL_CML_UART_DEV_MAX := 3,
    CONFIG_UART_FOR_CONSOLE := 2, CONFIG_MB_HAS_ACTIVE_HIGH_SD_PWR_ENABLE := false,
    LTR_IGN := 0x1B0C, IGN_GBE := 8, PCIE_CLK_NOTUSED := 0xFF, PsysPmax_bits := 16,
    size_Usb2OverCurrentPin := 16, size_Usb3OverCurrentPin := 10,
    size_SataPortsEnable := 8, size_SataPortsDevSlp := 8, size_PcieRpPmSci := 24,
    size_usb2_ports := 16, size_usb3_ports := 10,
    size_PcieClkSrcUsage := 16, size_PcieClkSrcClkReq := 16,
    size_PcieRpLtrEnable := 24, size_PcieRpHotPlug := 24, size_domain_vr_config := 5 }

/-- The same platform built with `CONFIG_SOC_INTEL_COMETLAKE`. -/
def cml : Platform :=
  { cnl with CONFIG_SOC_INTEL_COMETLAKE := true }

/-- Callees with the weak default board hook, a helper that writes one of the members the
source file never assigns, and an xDCI controller that may be enabled. -/
def callees_default : Callees :=
  { vbt_get := 0x7A000000,
    pmc_mmio_regs := 0xFE000000,
    xdci_can_enable := true,
    mainboard_silicon_init_params := fun params => params,
    fill_vr_domain_config := fun params domain c =>
      { params with other := Function.update params.other domain (c.headD 0) } }

/-- The same externals with an xDCI controller that may not be enabled. -/
def callees_no_xdci : Callees :=
  { callees_default with xdci_can_enable := false }

/-- A configuration record with every member 0. -/
def config_zero : config_t :=
  { SerialIoDevMode := fun _ => 0,
    psys_pmax := 0,
    SataMode := 0,
    SataSalpSupport := 0,
    SataPortsEnable := fun _ => 0,
    SataPortsDevSlp := fun _ => 0,
    s0ix_enable := 0,
    PchHdaDspEnable := 0,
    PchHdaAudioLinkHda := 0,
    PchHdaAudioLinkDmic0 := 0,
    PchHdaAudioLinkDmic1 := 0,
    PchHdaAudioLinkSsp0 := 0,
    PchHdaAudioLinkSsp1 := 0,
    PchHdaAudioLinkSsp2 := 0,
    PchHdaAudioLinkSndw1 := 0,
    PchHdaAudioLinkSndw2 := 0,
    PchHdaAudioLinkSndw3 := 0,
    PchHdaAudioLinkSndw4 := 0,
    DdiPortEdp := 0,
    DdiPortBHpd := 0,
    DdiPortCHpd := 0,
    DdiPortDHpd := 0,
    DdiPortFHpd := 0,
    DdiPortBDdc := 0,
    DdiPortCDdc := 0,
    DdiPortDDdc := 0,
    DdiPortFDdc := 0,
    usb2_ports := fun _ => ⟨0, 0, 0, 0, 0, 0⟩,
    usb3_ports := fun _ => ⟨0, 0, 0, 0⟩,
    PcieClkSrcUsage := fun _ => 0,
    PcieClkSrcClkReq := fun _ => 0,
    PcieRpLtrEnable := fun _ => 0,
    PcieRpHotPlug := fun _ => 0,
    ScsEmmcHs400Enabled := 0,
    EmmcHs400DllNeed := 0,
    EmmcHs400RxStrobeDll1 := 0,
    EmmcHs400TxDataDll := 0,
    Heci3Enabled := 0,
    Device4Enable := 0,
    domain_vr_config := fun _ => [],
    AcousticNoiseMitigation := 0,
    SlowSlewRateForIa := 0,
    SlowSlewRateForGt := 0,
    SlowSlewRateForSa := 0,
    SlowSlewRateForFivr := 0,
    FastPkgCRampDisableIa := 0,
    FastPkgCRampDisableGt := 0,
    FastPkgCRampDisableSa := 0,
    FastPkgCRampDisableFivr := 0,
    dmipwroptimize := 0,
    satapwroptimize := 0,
    PchPmSlpS3MinAssert := 0,
    PchPmSlpS4MinAssert := 0,
    PchPmSlpSusMinAssert := 0,
    PchPmSlpAMinAssert := 0,
    tcc_offset := 0,
    PchUnlockGpioPads := 0 }

/-- A configuration with non-zero records only where the callback branches: S0ix enabled, a
`psys_pmax` of 8192 W, unused clock sources, serial IO device 0 in mode 3, one USB3 port with a
de-emphasis override, and one minimum assertion width. -/
def config_sample : config_t :=
  { config_zero with
    s0ix_enable := 1,
    psys_pmax := 8192,
    SerialIoDevMode := fun k => if k = 0 then 3 else 0,
    PcieClkSrcUsage := fun i => if i = 1 then 0x40 else 0,
    usb3_ports := fun i =>
      { enable := 1, ocpin := 0, tx_de_emp := if i = 1 then 0x29 else 0, tx_downscale_amp := 0 },
    PchPmSlpS4MinAssert := 3 }

/-- A device tree with the root, I2C0, GbE and xDCI enabled, SATA present but disabled, and
nothing else. -/
def world_sample : World :=
  { SA_DEV_ROOT := some config_sample,
    devices := fun bus devfn =>
      if bus = 0 ∧ (devfn = 0xA8 ∨ devfn = 0xFE ∨ devfn = 0xA1) then some { enabled := 1 }
      else if bus = 0 ∧ devfn = 0xB8 then some { enabled := 0 }
      else none,
    mmio := fun addr => if addr = 0xFE001B0C then 0x81 else 0 }

/-- The same configuration with a `psys_pmax` of 45 W. -/
def config_45w : config_t :=
  { config_sample with psys_pmax := 45 }

/-- The same device tree with that configuration. -/
def world_45w : World :=
  { world_sample with SA_DEV_ROOT := some config_45w }

/-- The same device tree without its root device. -/
def world_no_root : World :=
  { world_sample with SA_DEV_ROOT := none }

/-- A UPD region as the FSP hands it over, every member holding the default 7. -/
def supd_sample : FSPS_UPD :=
  { FspsConfig := { field := fun _ => 7, array := fun _ _ => 7, other := fun _ => 7 },
    FspsTestConfig :=
      { PsysPmax := 7, TccActivationOffset := 7, PchUnlockGpioPads := 7, other := fun _ => 7 } }

/-! ## Equivalence table selector: proofs -/

theorem and_BIT12_eq_zero_iff (n : Nat) : (n % 2 ^ 64) &&& BIT12 = 0 ↔ n.testBit 12 = false := by
  have h : BIT12 = 2 ^ 12 := by decide
  rw [h, Nat.and_two_pow, Nat.testBit_mod_two_pow]
  cases n.testBit 12 <;> simp

theorem GetF16KbMicrocodeEquivalenceTable_eq {S H : Type} (msrs : Nat → Nat) (fs : S)
    (out : EquivalenceTableOut) (sh : H) :
    GetF16KbMicrocodeEquivalenceTable msrs fs out sh =
      if (msrs 0xC0011029).testBit 12 = true then
        { KbEquivalenceTablePtr := ConstVoidPtr.rom stu1, NumberOfElements := 2 }
      else out := by
  unfold GetF16KbMicrocodeEquivalenceTable LibAmdMsrRead
  simp only [and_BIT12_eq_zero_iff]
  cases h : (msrs 0xC0011029).testBit 12 <;> simp [stu1, sizeof_stu1, sizeof_UINT16]

/-! ## Parameter mapper: assignments, loops and blocks -/

theorem forLoop_invariant {σ : Type} (I : σ → Prop) (body : Nat → σ → σ)
    (hstep : ∀ i s, I s → I (body i s)) (n : Nat) (s : σ) (h0 : I s) :
    I (forLoop body n s) := by
  induction n with
  | zero => exact h0
  | succ k ih => exact hstep k _ ih

@[simp] theorem field_set (p : FSP_S_CONFIG) (m : UpdMember) (v : Nat) (m2 : UpdMember) :
    (p.set m v).field m2 = if m2 = m then v else p.field m2 := by
  simp [FSP_S_CONFIG.set, Function.update_apply]

@[simp] theorem array_set (p : FSP_S_CONFIG) (m : UpdMember) (v : Nat) :
    (p.set m v).array = p.array := rfl

@[simp] theorem other_set (p : FSP_S_CONFIG) (m : UpdMember) (v : Nat) :
    (p.set m v).other = p.other := rfl

@[simp] theorem field_setElem (p : FSP_S_CONFIG) (a : UpdArray) (i v : Nat) :
    (p.setElem a i v).field = p.field := rfl

@[simp] theorem array_setElem (p : FSP_S_CONFIG) (a : UpdArray) (i v : Nat) (a2 : UpdArray)
    (j : Nat) :
    (p.setElem a i v).array a2 j = if a2 = a ∧ j = i then v else p.array a2 j := by
  unfold FSP_S_CONFIG.setElem
  by_cases h : a2 = a
  · subst h; simp [Function.update_apply]
  · simp [Function.update_apply, h]

@[simp] theorem other_setElem (p : FSP_S_CONFIG) (a : UpdArray) (i v : Nat) :
    (p.setElem a i v).other = p.other := rfl

@[simp] theorem field_setArray (p : FSP_S_CONFIG) (a : UpdArray) (g : Nat → Nat) :
    (p.setArray a g).field = p.field := rfl

@[simp] theorem array_setArray (p : FSP_S_CONFIG) (a : UpdArray) (g : Nat → Nat)
    (a2 : UpdArray) :
    (p.setArray a g).array a2 = if a2 = a then g else p.array a2 := by
  simp [FSP_S_CONFIG.setArray, Function.update_apply]

@[simp] theorem other_setArray (p : FSP_S_CONFIG) (a : UpdArray) (g : Nat → Nat) :
    (p.setArray a g).other = p.other := rfl

@[simp] theorem sata_block_field (P : Platform) (w : World) (config : config_t) (p : FSP_S_CONFIG)
    (m : UpdMember) (h1 : m ≠ .SataEnable) (h2 : m ≠ .SataMode) (h3 : m ≠ .SataSalpSupport) :
    (sata_block P w config p).field m = p.field m := by
  unfold sata_block
  split <;> simp [h1, h2, h3]

@[simp] theorem sata_block_array (P : Platform) (w : World) (config : config_t) (p : FSP_S_CONFIG)
    (a : UpdArray) (ha : a ∉ [UpdArray.SataPortsEnable, .SataPortsDevSlp]) :
    (sata_block P w config p).array a = p.array a := by
  simp only [List.mem_cons, List.mem_singleton, List.not_mem_nil, not_or, or_false] at ha
  unfold sata_block
  split <;> simp [ha]

@[simp] theorem lan_block_field (P : Platform) (E : Callees) (w : World) (config : config_t)
    (p : FSP_S_CONFIG) (m : UpdMember)
    (hm : m ∉ [UpdMember.PchLanEnable, .SlpS0WithGbeSupport, .PchPmSlpS0VmRuntimeControl,
      .PchPmSlpS0Vm070VSupport, .PchPmSlpS0Vm075VSupport]) :
    (lan_block P E w config p).2.field m = p.field m := by
  simp only [List.mem_cons, List.mem_singleton, List.not_mem_nil, not_or, or_false] at hm
  unfold lan_block
  split
  · simp [hm]
  · split_ifs <;> simp [hm]

@[simp] theorem lan_block_array (P : Platform) (E : Callees) (w : World) (config : config_t)
    (p : FSP_S_CONFIG) : (lan_block P E w config p).2.array = p.array := by
  unfold lan_block
  split
  · simp
  · split_ifs <;> simp

@[simp] theorem audio_display_block_field (P : Platform) (config : config_t) (p : FSP_S_CONFIG)
    (m : UpdMember)
    (hm : m ∉ [UpdMember.PchHdaDspEnable, .PchHdaAudioLinkHda, .PchHdaAudioLinkDmic0,
      .PchHdaAudioLinkDmic1, .PchHdaAudioLinkSsp0, .PchHdaAudioLinkSsp1, .PchHdaAudioLinkSsp2,
      .PchHdaAudioLinkSndw1, .PchHdaAudioLinkSndw2, .PchHdaAudioLinkSndw3,
      .PchHdaAudioLinkSndw4, .DdiPortEdp, .DdiPortBHpd, .DdiPortCHpd, .DdiPortDHpd,
      .DdiPortFHpd, .DdiPortBDdc, .DdiPortCDdc, .DdiPortDDdc, .DdiPortFDdc,
      .PchPmSlpS0Enable]) :
    (audio_display_block P config p).field m = p.field m := by
  simp only [List.mem_cons, List.mem_singleton, List.not_mem_nil, not_or, or_false] at hm
  simp [audio_display_block, hm]

@[simp] theorem audio_display_block_array (P : Platform) (config : config_t) (p : FSP_S_CONFIG)
    (a : UpdArray) (ha : a ≠ .PcieRpPmSci) :
    (audio_display_block P config p).array a = p.array a := by
  simp [audio_display_block, ha]

@[simp] theorem usb2_loop_field (config : config_t) (n : Nat) (p : FSP_S_CONFIG) :
    (forLoop (usb2_port_step config) n p).field = p.field := by
  refine forLoop_invariant (fun q => q.field = p.field) _ ?_ n p rfl
  intro i s hs
  simpa [usb2_port_step] using hs

@[simp] theorem usb2_loop_array (config : config_t) (n : Nat) (p : FSP_S_CONFIG) (a : UpdArray)
    (ha : a ∉ [UpdArray.PortUsb20Enable, .Usb2OverCurrentPin, .Usb2AfePetxiset, .Usb2AfeTxiset,
      .Usb2AfePredeemp, .Usb2AfePehalfbit]) :
    (forLoop (usb2_port_step config) n p).array a = p.array a := by
  simp only [List.mem_cons, List.mem_singleton, List.not_mem_nil, not_or, or_false] at ha
  refine forLoop_invariant (fun q => q.array a = p.array a) _ ?_ n p rfl
  intro i s hs
  funext j
  simp [usb2_port_step, ha, hs]

@[simp] theorem usb3_loop_field (config : config_t) (n : Nat) (p : FSP_S_CONFIG) :
    (forLoop (usb3_port_step config) n p).field = p.field := by
  refine forLoop_invariant (fun q => q.field = p.field) _ ?_ n p rfl
  intro i s hs
  unfold usb3_port_step
  split_ifs <;> simpa using hs

@[simp] theorem usb3_loop_array (config : config_t) (n : Nat) (p : FSP_S_CONFIG) (a : UpdArray)
    (ha : a ∉ [UpdArray.PortUsb30Enable, .Usb3OverCurrentPin, .Usb3HsioTxDeEmphEnable,
      .Usb3HsioTxDeEmph, .Usb3HsioTxDownscaleAmpEnable, .Usb3HsioTxDownscaleAmp]) :
    (forLoop (usb3_port_step config) n p).array a = p.array a := by
  simp only [List.mem_cons, List.mem_singleton, List.not_mem_nil, not_or, or_false] at ha
  refine forLoop_invariant (fun q => q.array a = p.array a) _ ?_ n p rfl
  intro i s hs
  funext j
  unfold usb3_port_step
  split_ifs <;> simp [ha, hs]

theorem usb3_loop_de_emph (config : config_t) (n : Nat) (p : FSP_S_CONFIG) (i : Nat) :
    (forLoop (usb3_port_step config) n p).array .Usb3HsioTxDeEmphEnable i =
        (if i < n ∧ (config.usb3_ports i).tx_de_emp ≠ 0 then 1
         else p.array .Usb3HsioTxDeEmphEnable i) ∧
    (forLoop (usb3_port_step config) n p).array .Usb3HsioTxDeEmph i =
        (if i < n ∧ (config.usb3_ports i).tx_de_emp ≠ 0 then (config.usb3_ports i).tx_de_emp
         else p.array .Usb3HsioTxDeEmph i) := by
  induction n with
  | zero => simp [forLoop]
  | succ k ih =>
    obtain ⟨ih1, ih2⟩ := ih
    rw [forLoop]
    generalize forLoop (usb3_port_step config) k p = q at ih1 ih2 ⊢
    unfold usb3_port_step
    by_cases hik : i = k
    · subst hik
      split_ifs <;> simp_all
    · have hlt : i < k + 1 ↔ i < k := by omega
      split_ifs <;> simp_all

theorem usb3_loop_downscale (config : config_t) (n : Nat) (p : FSP_S_CONFIG) (i : Nat) :
    (forLoop (usb3_port_step config) n p).array .Usb3HsioTxDownscaleAmpEnable i =
        (if i < n ∧ (config.usb3_ports i).tx_downscale_amp ≠ 0 then 1
         else p.array .Usb3HsioTxDownscaleAmpEnable i) ∧
    (forLoop (usb3_port_step config) n p).array .Usb3HsioTxDownscaleAmp i =
        (if i < n ∧ (config.usb3_ports i).tx_downscale_amp ≠ 0 then
          (config.usb3_ports i).tx_downscale_amp
         else p.array .Usb3HsioTxDownscaleAmp i) := by
  induction n with
  | zero => simp [forLoop]
  | succ k ih =>
    obtain ⟨ih1, ih2⟩ := ih
    rw [forLoop]
    generalize forLoop (usb3_port_step config) k p = q at ih1 ih2 ⊢
    unfold usb3_port_step
    by_cases hik : i = k
    · subst hik
      split_ifs <;> simp_all
    · have hlt : i < k + 1 ↔ i < k := by omega
      split_ifs <;> simp_all

@[simp] theorem xdci_block_field (P : Platform) (E : Callees) (w : World) (p : FSP_S_CONFIG)
    (m : UpdMember) (hm : m ≠ .XdciEnable) :
    (xdci_block P E w p).2.field m = p.field m := by
  unfold xdci_block
  split <;> simp [hm]

@[simp] theorem xdci_block_array (P : Platform) (E : Callees) (w : World) (p : FSP_S_CONFIG) :
    (xdci_block P E w p).2.array = p.array := by
  unfold xdci_block
  split <;> simp

@[simp] theorem cnvi_block_field (P : Platform) (w : World) (p : FSP_S_CONFIG) (m : UpdMember)
    (hm : m ∉ [UpdMember.CnviMode, .PchCnviMode]) :
    (cnvi_block P w p).field m = p.field m := by
  simp only [List.mem_cons, List.mem_singleton, List.not_mem_nil, not_or, or_false] at hm
  unfold cnvi_block
  split_ifs <;> split <;> simp [hm]

@[simp] theorem cnvi_block_array (P : Platform) (w : World) (p : FSP_S_CONFIG) :
    (cnvi_block P w p).array = p.array := by
  unfold cnvi_block
  split_ifs <;> split <;> simp

@[simp] theorem pcie_block_field (P : Platform) (config : config_t) (p : FSP_S_CONFIG) :
    (pcie_block P config p).2.field = p.field := by
  simp [pcie_block]

@[simp] theorem pcie_block_array (P : Platform) (config : config_t) (p : FSP_S_CONFIG) (a : UpdArray)
    (ha : a ∉ [UpdArray.PcieClkSrcUsage, .PcieClkSrcClkReq, .PcieRpLtrEnable,
      .PcieRpHotPlug]) :
    (pcie_block P config p).2.array a = p.array a := by
  simp only [List.mem_cons, List.mem_singleton, List.not_mem_nil, not_or, or_false] at ha
  simp [pcie_block, ha]

@[simp] theorem emmc_block_field (P : Platform) (w : World) (config : config_t) (p : FSP_S_CONFIG)
    (m : UpdMember)
    (hm : m ∉ [UpdMember.ScsEmmcEnabled, .ScsEmmcHs400Enabled, .PchScsEmmcHs400DllDataValid,
      .PchScsEmmcHs400RxStrobeDll1, .PchScsEmmcHs400TxDataDll]) :
    (emmc_block P w config p).field m = p.field m := by
  simp only [List.mem_cons, List.mem_singleton, List.not_mem_nil, not_or, or_false] at hm
  unfold emmc_block
  split
  · simp [hm]
  · split_ifs <;> simp [hm]

@[simp] theorem emmc_block_array (P : Platform) (w : World) (config : config_t) (p : FSP_S_CONFIG) :
    (emmc_block P w config p).array = p.array := by
  unfold emmc_block
  split
  · simp
  · split_ifs <;> simp

@[simp] theorem sdcard_block_field (P : Platform) (w : World) (p : FSP_S_CONFIG) (m : UpdMember)
    (hm : m ∉ [UpdMember.ScsSdCardEnabled, .SdCardPowerEnableActiveHigh]) :
    (sdcard_block P w p).field m = p.field m := by
  simp only [List.mem_cons, List.mem_singleton, List.not_mem_nil, not_or, or_false] at hm
  unfold sdcard_block
  split <;> simp [hm]

@[simp] theorem sdcard_block_array (P : Platform) (w : World) (p : FSP_S_CONFIG) :
    (sdcard_block P w p).array = p.array := by
  unfold sdcard_block
  split <;> simp

@[simp] theorem ufs_block_field (P : Platform) (w : World) (p : FSP_S_CONFIG) (m : UpdMember)
    (hm : m ≠ .ScsUfsEnabled) :
    (ufs_block P w p).field m = p.field m := by
  unfold ufs_block
  split <;> simp [hm]

@[simp] theorem ufs_block_array (P : Platform) (w : World) (p : FSP_S_CONFIG) :
    (ufs_block P w p).array = p.array := by
  unfold ufs_block
  split <;> simp

theorem vr_loop_frame (E : Callees) (hvr : VrFrame E) (config : config_t) (n : Nat)
    (p : FSP_S_CONFIG) :
    (forLoop (vr_domain_step E config) n p).field = p.field ∧
    (forLoop (vr_domain_step E config) n p).array = p.array := by
  refine forLoop_invariant (fun q => q.field = p.field ∧ q.array = p.array) _ ?_ n p ⟨rfl, rfl⟩
  rintro i s ⟨h1, h2⟩
  obtain ⟨o, ho⟩ := hvr s i (config.domain_vr_config i)
  rw [vr_domain_step, ho]
  exact ⟨h1, h2⟩

@[simp] theorem noise_power_block_field (config : config_t) (p : FSP_S_CONFIG) (m : UpdMember)
    (hm : m ∉ [UpdMember.AcousticNoiseMitigation, .SlowSlewRateForIa, .SlowSlewRateForGt,
      .SlowSlewRateForSa, .SlowSlewRateForFivr, .FastPkgCRampDisableIa, .FastPkgCRampDisableGt,
      .FastPkgCRampDisableSa, .FastPkgCRampDisableFivr, .PchPwrOptEnable, .SataPwrOptEnable]) :
    (noise_power_block config p).field m = p.field m := by
  simp only [List.mem_cons, List.mem_singleton, List.not_mem_nil, not_or, or_false] at hm
  simp [noise_power_block, hm]

@[simp] theorem noise_power_block_array (config : config_t) (p : FSP_S_CONFIG) :
    (noise_power_block config p).array = p.array := by
  simp [noise_power_block]

@[simp] theorem min_assert_block_field (config : config_t) (p : FSP_S_CONFIG) (m : UpdMember)
    (hm : m ∉ [UpdMember.PchPmSlpS3MinAssert, .PchPmSlpS4MinAssert, .PchPmSlpSusMinAssert,
      .PchPmSlpAMinAssert]) :
    (min_assert_block config p).field m = p.field m := by
  simp only [List.mem_cons, List.mem_singleton, List.not_mem_nil, not_or, or_false] at hm
  unfold min_assert_block
  split_ifs <;> simp [hm]

@[simp] theorem min_assert_block_array (config : config_t) (p : FSP_S_CONFIG) :
    (min_assert_block config p).array = p.array := by
  unfold min_assert_block
  split_ifs <;> simp

theorem min_assert_block_values (config : config_t) (p : FSP_S_CONFIG) :
    (min_assert_block config p).field .PchPmSlpS3MinAssert =
        (if config.PchPmSlpS3MinAssert ≠ 0 then config.PchPmSlpS3MinAssert
         else p.field .PchPmSlpS3MinAssert) ∧
    (min_assert_block config p).field .PchPmSlpS4MinAssert =
        (if config.PchPmSlpS4MinAssert ≠ 0 then config.PchPmSlpS4MinAssert
         else p.field .PchPmSlpS4MinAssert) ∧
    (min_assert_block config p).field .PchPmSlpSusMinAssert =
        (if config.PchPmSlpSusMinAssert ≠ 0 then config.PchPmSlpSusMinAssert
         else p.field .PchPmSlpSusMinAssert) ∧
    (min_assert_block config p).field .PchPmSlpAMinAssert =
        (if config.PchPmSlpAMinAssert ≠ 0 then config.PchPmSlpAMinAssert
         else p.field .PchPmSlpAMinAssert) := by
  unfold min_assert_block
  split_ifs <;> simp

/-! ### Devices that are off stay off -/

theorem device_off_iff (w : World) (devfn : Nat) :
    device_off w devfn ↔ device_off_in w.devices devfn := Iff.rfl

theorem xdci_block_device_off (P : Platform) (E : Callees) (w : World) (p : FSP_S_CONFIG)
    (devfn : Nat) (h : device_off_in w.devices devfn) :
    device_off_in (xdci_block P E w p).1.devices devfn := by
  unfold xdci_block
  split
  · rename_i dev hdev
    by_cases hd : devfn = P.PCH_DEVFN_USBOTG
    · subst hd
      right
      refine ⟨if E.xdci_can_enable = false then { dev with enabled := 0 } else dev,
        by simp [write_device], ?_⟩
      rcases h with h | ⟨d, h1, h2⟩
      · rw [dev_find_slot, h] at hdev; cases hdev
      · rw [dev_find_slot, h1] at hdev; cases hdev
        split_ifs <;> simp [h2]
    · rcases h with h | ⟨d, h1, h2⟩
      · left
        simpa [write_device, Function.update_apply, hd] using h
      · right
        exact ⟨d, by simpa [write_device, Function.update_apply, hd] using h1, h2⟩
  · exact h

/-! ### Value of each enable member right after its block -/

theorem sata_block_off (P : Platform) (w : World) (config : config_t) (p : FSP_S_CONFIG)
    (h : device_off_in w.devices P.PCH_DEVFN_SATA) :
    (sata_block P w config p).field .SataEnable = 0 := by
  unfold sata_block dev_find_slot
  rcases h with h | ⟨d, h1, h2⟩
  · simp [h]
  · simp [h1, h2]

theorem lan_block_off (P : Platform) (E : Callees) (w : World) (config : config_t)
    (p : FSP_S_CONFIG) (h : device_off_in w.devices P.PCH_DEVFN_GBE) :
    (lan_block P E w config p).2.field .PchLanEnable = 0 := by
  unfold lan_block dev_find_slot
  rcases h with h | ⟨d, h1, h2⟩
  · simp [h]
  · simp only [h1]
    split_ifs <;> simp [h2]

theorem xdci_block_off (P : Platform) (E : Callees) (w : World) (p : FSP_S_CONFIG)
    (h : device_off_in w.devices P.PCH_DEVFN_USBOTG) :
    (xdci_block P E w p).2.field .XdciEnable = 0 := by
  unfold xdci_block dev_find_slot
  rcases h with h | ⟨d, h1, h2⟩
  · simp [h]
  · simp only [h1]
    split_ifs <;> simp [h2]

theorem cnvi_block_off (P : Platform) (w : World) (p : FSP_S_CONFIG)
    (h : device_off_in w.devices P.PCH_DEVFN_CNViWIFI) :
    (P.CONFIG_SOC_INTEL_COMETLAKE = true → (cnvi_block P w p).field .CnviMode = 0) ∧
    (P.CONFIG_SOC_INTEL_COMETLAKE = false → (cnvi_block P w p).field .PchCnviMode = 0) := by
  unfold cnvi_block dev_find_slot
  rcases h with h | ⟨d, h1, h2⟩
  · constructor <;> intro hc <;> simp [h, hc]
  · constructor <;> intro hc <;> simp [h1, h2, hc]

theorem emmc_block_off (P : Platform) (w : World) (config : config_t) (p : FSP_S_CONFIG)
    (h : device_off_in w.devices P.PCH_DEVFN_EMMC) :
    (emmc_block P w config p).field .ScsEmmcEnabled = 0 := by
  unfold emmc_block dev_find_slot
  rcases h with h | ⟨d, h1, h2⟩
  · simp [h]
  · simp only [h1]
    split_ifs <;> simp [h2]

theorem sdcard_block_off (P : Platform) (w : World) (p : FSP_S_CONFIG)
    (h : device_off_in w.devices P.PCH_DEVFN_SDCARD) :
    (sdcard_block P w p).field .ScsSdCardEnabled = 0 := by
  unfold sdcard_block dev_find_slot
  rcases h with h | ⟨d, h1, h2⟩
  · simp [h]
  · simp [h1, h2]

theorem ufs_block_off (P : Platform) (w : World) (p : FSP_S_CONFIG)
    (h : device_off_in w.devices P.PCH_DEVFN_UFS) :
    (ufs_block P w p).field .ScsUfsEnabled = 0 := by
  unfold ufs_block dev_find_slot
  rcases h with h | ⟨d, h1, h2⟩
  · simp [h]
  · simp [h1, h2]

/-! ### Serial IO modes -/

theorem serial_io_dev_length (P : Platform) : (serial_io_dev P).length = 12 := rfl

theorem get_param_value_some (P : Platform) (w : World) (config : config_t) (k : Nat)
    (hk : k < (serial_io_dev P).length) :
    ∃ v, get_param_value P w config k = some v := by
  unfold get_param_value
  rw [List.getElem?_eq_getElem hk]
  dsimp only
  split
  · exact ⟨_, rfl⟩
  · split_ifs <;> exact ⟨_, rfl⟩

theorem mode_loop (P : Platform) (w : World) (config : config_t) (a : UpdArray)
    (step : Nat → FSP_S_CONFIG × Nat → Option (FSP_S_CONFIG × Nat))
    (hstep : ∀ i s, step i s =
      (get_param_value P w config s.2).map fun v => (s.1.setElem a i v, s.2 + 1))
    (n off : Nat) (p : FSP_S_CONFIG) (hfit : off + n ≤ (serial_io_dev P).length) :
    ∃ q, forLoopM step n (p, off) = some (q, off + n) ∧ q.field = p.field ∧
      q.other = p.other ∧
      ∀ a2 j, q.array a2 j =
        if a2 = a ∧ j < n then (get_param_value P w config (off + j)).getD 0
        else p.array a2 j := by
  induction n with
  | zero => exact ⟨p, rfl, rfl, rfl, by simp⟩
  | succ k ih =>
    obtain ⟨q, hq, hf, ho, ha⟩ := ih (by omega)
    obtain ⟨v, hv⟩ := get_param_value_some P w config (off + k) (by omega)
    refine ⟨q.setElem a k v, ?_, by simpa using hf, by simpa using ho, ?_⟩
    · rw [forLoopM, hq, Option.some_bind, hstep]
      simp [hv, Nat.add_assoc]
    · intro a2 j
      rw [array_setElem, ha]
      by_cases h1 : a2 = a
      · by_cases h2 : j = k
        · subst h2; simp [h1, hv]
        · have h3 : j < k + 1 ↔ j < k := by omega
          simp [h1, h2, h3]
      · simp [h1]

theorem dev_mode_loop (P : Platform) (w : World) (config : config_t) (n : Nat)
    (p : FSP_S_CONFIG) (hfit : n ≤ (serial_io_dev P).length) :
    ∃ q, forLoopM (dev_mode_step P w config) n p = some q ∧ q.field = p.field ∧
      q.other = p.other ∧
      ∀ a2 j, q.array a2 j =
        if a2 = .SerialIoDevMode ∧ j < n then (get_param_value P w config j).getD 0
        else p.array a2 j := by
  induction n with
  | zero => exact ⟨p, rfl, rfl, rfl, by simp⟩
  | succ k ih =>
    obtain ⟨q, hq, hf, ho, ha⟩ := ih (by omega)
    obtain ⟨v, hv⟩ := get_param_value_some P w config k (by omega)
    refine ⟨q.setElem .SerialIoDevMode k v, ?_, by simpa using hf, by simpa using ho, ?_⟩
    · rw [forLoopM, hq, Option.some_bind, dev_mode_step]
      simp [hv]
    · intro a2 j
      rw [array_setElem, ha]
      by_cases h1 : a2 = .SerialIoDevMode
      · by_cases h2 : j = k
        · subst h2; simp [h1, hv]
        · have h3 : j < k + 1 ↔ j < k := by omega
          simp [h1, h2, h3]
      · simp [h1]

theorem parse_devicetree_param_spec (P : Platform) (w : World) (config : config_t)
    (p : FSP_S_CONFIG) (hfit : SerialIoFits P) :
    ∃ q, parse_devicetree_param P w config p = some q ∧ q.field = p.field ∧
      ∀ k, k < (serial_io_dev P).length →
        ∀ s, serial_io_slot P q k = some s →
          get_param_value P w config k = some s := by
  unfold parse_devicetree_param
  cases hc : P.CONFIG_SOC_INTEL_COMETLAKE
  · obtain ⟨q, hq, hf, -, ha⟩ := dev_mode_loop P w config _ p (le_refl _)
    refine ⟨q, by simpa using hq, hf, ?_⟩
    intro k hk s hs
    obtain ⟨v, hv⟩ := get_param_value_some P w config k hk
    simp only [serial_io_slot, hc, Bool.false_eq_true, if_false, Option.some.injEq] at hs
    rw [ha] at hs
    simp [hk, hv] at hs
    rw [hv, hs]
  · have hfit2 := hfit hc
    obtain ⟨q1, hq1, hf1, -, ha1⟩ := mode_loop P w config .SerialIoI2cMode
      (i2c_mode_step P w config) (fun _ _ => rfl) P.CONFIG_SOC_INTEL_I2C_DEV_MAX 0 p (by omega)
    rw [Nat.zero_add] at hq1
    obtain ⟨q2, hq2, hf2, -, ha2⟩ := mode_loop P w config .SerialIoSpiMode
      (spi_mode_step P w config) (fun _ _ => rfl) P.CONFIG_SOC_INTEL_COMMON_BLOCK_GSPI_MAX
      P.CONFIG_SOC_INTEL_I2C_DEV_MAX q1 (by omega)
    obtain ⟨q3, hq3, hf3, -, ha3⟩ := mode_loop P w config .SerialIoUartMode
      (uart_mode_step P w config) (fun _ _ => rfl) P.SOC_INTEL_CML_UART_DEV_MAX
      (P.CONFIG_SOC_INTEL_I2C_DEV_MAX + P.CONFIG_SOC_INTEL_COMMON_BLOCK_GSPI_MAX) q2
      (by omega)
    refine ⟨q3, ?_, by rw [hf3, hf2, hf1], ?_⟩
    · simp only [if_true, hq1, hq2, hq3, Option.some_bind, Option.map_some']
    · intro k hk s hs
      obtain ⟨v, hv⟩ := get_param_value_some P w config k hk
      simp only [serial_io_slot, hc, if_true] at hs
      split_ifs at hs with h1 h2 h3
      · simp only [Option.some.injEq] at hs
        rw [ha3, ha2, ha1] at hs
        simp [h1, hv] at hs
        rw [hv, hs]
      · simp only [Option.some.injEq] at hs
        rw [ha3, ha2] at hs
        have h4 : k - P.CONFIG_SOC_INTEL_I2C_DEV_MAX < P.CONFIG_SOC_INTEL_COMMON_BLOCK_GSPI_MAX :=
          by omega
        have h5 : P.CONFIG_SOC_INTEL_I2C_DEV_MAX + (k - P.CONFIG_SOC_INTEL_I2C_DEV_MAX) = k :=
          by omega
        rw [h5] at hs
        simp [h4, hv] at hs
        rw [hv, hs]
      · simp only [Option.some.injEq] at hs
        rw [ha3] at hs
        have h4 : k - P.CONFIG_SOC_INTEL_I2C_DEV_MAX - P.CONFIG_SOC_INTEL_COMMON_BLOCK_GSPI_MAX <
            P.SOC_INTEL_CML_UART_DEV_MAX := by omega
        have h5 : P.CONFIG_SOC_INTEL_I2C_DEV_MAX + P.CONFIG_SOC_INTEL_COMMON_BLOCK_GSPI_MAX +
            (k - P.CONFIG_SOC_INTEL_I2C_DEV_MAX - P.CONFIG_SOC_INTEL_COMMON_BLOCK_GSPI_MAX) = k :=
          by omega
        rw [h5] at hs
        simp [h4, hv] at hs
        rw [hv, hs]

/-! ### The callback as a whole -/

theorem parse_devicetree_some (P : Platform) (w : World) (p : FSP_S_CONFIG)
    (hfit : SerialIoFits P) : ∃ q, parse_devicetree P w p = some q := by
  unfold parse_devicetree
  split
  · exact ⟨p, rfl⟩
  · rename_i config _
    obtain ⟨q, hq, -⟩ := parse_devicetree_param_spec P w config p hfit
    exact ⟨q, hq⟩

theorem params_after_mainboard_some (P : Platform) (E : Callees) (w : World) (supd : FSPS_UPD)
    (hfit : SerialIoFits P) : ∃ p0, params_after_mainboard P E w supd = some p0 := by
  obtain ⟨q, hq⟩ := parse_devicetree_some P w supd.FspsConfig hfit
  unfold params_after_mainboard
  rw [hq]
  exact ⟨_, rfl⟩

theorem clk_src_usage_loop_eq (P : Platform) (n : Nat) (config : config_t) :
    forLoop (clk_src_usage_step P) n config =
      { config with
        PcieClkSrcUsage := fun i =>
          if i < n ∧ config.PcieClkSrcUsage i = 0 then P.PCIE_CLK_NOTUSED
          else config.PcieClkSrcUsage i } := by
  induction n with
  | zero => simp [forLoop]
  | succ k ih =>
    rw [forLoop, ih, clk_src_usage_step]
    by_cases ha : config.PcieClkSrcUsage k = 0
    · simp only [ha, lt_self_iff_false, false_and, if_false, if_true]
      congr 1
      funext i
      by_cases hik : i = k
      · subst hik; simp [ha]
      · have hlt : i < k + 1 ↔ i < k := by omega
        simp [Function.update_apply, hik, hlt]
    · simp only [ha, lt_self_iff_false, false_and, if_false]
      congr 1
      funext i
      by_cases hik : i = k
      · subst hik; simp [ha]
      · have hlt : i < k + 1 ↔ i < k := by omega
        simp [hlt]

@[simp] theorem pcie_block_config (P : Platform) (config : config_t) (p : FSP_S_CONFIG) :
    (pcie_block P config p).1 =
      { config with
        PcieClkSrcUsage := fun i =>
          if i < P.size_PcieClkSrcUsage ∧ config.PcieClkSrcUsage i = 0 then P.PCIE_CLK_NOTUSED
          else config.PcieClkSrcUsage i } := by
  simp [pcie_block, clk_src_usage_loop_eq]

@[simp] theorem xdci_block_mmio (P : Platform) (E : Callees) (w : World) (p : FSP_S_CONFIG) :
    (xdci_block P E w p).1.mmio = w.mmio := by
  unfold xdci_block write_device
  split <;> rfl

@[simp] theorem xdci_block_root (P : Platform) (E : Callees) (w : World) (p : FSP_S_CONFIG) :
    (xdci_block P E w p).1.SA_DEV_ROOT = w.SA_DEV_ROOT := by
  unfold xdci_block write_device
  split <;> rfl

theorem xdci_block_devices (P : Platform) (E : Callees) (w : World) (p : FSP_S_CONFIG)
    (bus devfn : Nat) :
    (xdci_block P E w p).1.devices bus devfn =
      if bus = 0 ∧ devfn = P.PCH_DEVFN_USBOTG ∧ E.xdci_can_enable = false then
        (w.devices bus devfn).map fun dev => { dev with enabled := 0 }
      else w.devices bus devfn := by
  unfold xdci_block write_device dev_find_slot
  split
  · rename_i dev hdev
    by_cases hb : bus = 0
    · subst hb
      by_cases hd : devfn = P.PCH_DEVFN_USBOTG
      · subst hd
        cases hx : E.xdci_can_enable <;> simp [hdev]
      · simp [Function.update_apply, hd]
    · simp [Function.update_apply, hb]
  · rename_i hdev
    by_cases hb : bus = 0
    · subst hb
      by_cases hd : devfn = P.PCH_DEVFN_USBOTG
      · subst hd
        simp [hdev]
      · simp [hd]
    · simp [hb]

theorem lan_block_mmio (P : Platform) (E : Callees) (w : World) (config : config_t)
    (p : FSP_S_CONFIG) :
    (lan_block P E w config p).1 =
      if (dev_find_slot w 0 P.PCH_DEVFN_GBE).isSome = true ∧ config.s0ix_enable ≠ 0 then
        ignore_gbe_ltr P E w.mmio
      else w.mmio := by
  unfold lan_block
  split
  · rename_i h; simp [h]
  · rename_i dev h
    simp only [h]
    split_ifs <;> simp_all

theorem ignore_gbe_ltr_read (P : Platform) (E : Callees) (mmio : Nat → Nat) :
    read8 (ignore_gbe_ltr P E mmio) (E.pmc_mmio_regs + P.LTR_IGN) =
      (read8 mmio (E.pmc_mmio_regs + P.LTR_IGN) ||| P.IGN_GBE) % 256 := by
  simp [ignore_gbe_ltr, read8, write8]

theorem ignore_gbe_ltr_other (P : Platform) (E : Callees) (mmio : Nat → Nat) (addr : Nat)
    (h : addr ≠ E.pmc_mmio_regs + P.LTR_IGN) : ignore_gbe_ltr P E mmio addr = mmio addr := by
  simp [ignore_gbe_ltr, write8, Function.update_apply, h]

theorem or_mod_256_idem (r g : Nat) : ((((r ||| g) % 256) % 256 ||| g) % 256) = (r ||| g) % 256 := by
  apply Nat.eq_of_testBit_eq
  intro i
  have h : (256 : Nat) = 2 ^ 8 := by norm_num
  simp only [h, Nat.testBit_mod_two_pow, Nat.testBit_or]
  cases decide (i < 8) <;> cases r.testBit i <;> cases g.testBit i <;> rfl

theorem ignore_gbe_ltr_idem (P : Platform) (E : Callees) (mmio : Nat → Nat) :
    ignore_gbe_ltr P E (ignore_gbe_ltr P E mmio) = ignore_gbe_ltr P E mmio := by
  funext addr
  by_cases h : addr = E.pmc_mmio_regs + P.LTR_IGN
  · subst h
    simp only [ignore_gbe_ltr, read8, write8, Function.update_same, Nat.mod_mod]
    have := or_mod_256_idem (mmio (E.pmc_mmio_regs + P.LTR_IGN) % 256) P.IGN_GBE
    simpa [Nat.mod_mod] using this
  · rw [ignore_gbe_ltr_other P E _ addr h]

/-! ## The numbered properties -/
/-- C1: for every configuration and every device table, after the callback each device class
that is absent from the table or present with `enabled = 0` has its enable member equal to 0:
`SataEnable`, `PchLanEnable`, `XdciEnable`, `CnviMode` (Comet Lake) or `PchCnviMode`,
`ScsEmmcEnabled`, `ScsSdCardEnabled`, `ScsUfsEnabled`. The root device carries the
configuration, the serial IO loops stay inside `serial_io_dev`, and `fill_vr_domain_config`
writes only members that the source file never assigns. -/
theorem C1_absent_or_disabled_device_is_disabled (P : Platform) (E : Callees) (w : World)
    (supd : FSPS_UPD) (config : config_t) (hroot : w.SA_DEV_ROOT = some config)
    (hfit : SerialIoFits P) (hvr : VrFrame E) :
    ∃ w2 upd, platform_fsp_silicon_init_params_cb P E w supd = some (w2, upd) ∧
      (device_off w P.PCH_DEVFN_SATA → upd.FspsConfig.field .SataEnable = 0) ∧
      (device_off w P.PCH_DEVFN_GBE → upd.FspsConfig.field .PchLanEnable = 0) ∧
      (device_off w P.PCH_DEVFN_USBOTG → upd.FspsConfig.field .XdciEnable = 0) ∧
      (device_off w P.PCH_DEVFN_CNViWIFI →
        upd.FspsConfig.field
          (if P.CONFIG_SOC_INTEL_COMETLAKE then .CnviMode else .PchCnviMode) = 0) ∧
      (device_off w P.PCH_DEVFN_EMMC → upd.FspsConfig.field .ScsEmmcEnabled = 0) ∧
      (device_off w P.PCH_DEVFN_SDCARD → upd.FspsConfig.field .ScsSdCardEnabled = 0) ∧
      (device_off w P.PCH_DEVFN_UFS → upd.FspsConfig.field .ScsUfsEnabled = 0) := by
  obtain ⟨p0, hp0⟩ := params_after_mainboard_some P E w supd hfit
  unfold platform_fsp_silicon_init_params_cb
  simp only [hroot, hp0]
  have hv := fun c n p => (vr_loop_frame E hvr c n p).1
  refine ⟨_, _, rfl, ?_, ?_, ?_, ?_, ?_, ?_, ?_⟩ <;> intro h <;> rw [device_off_iff] at h
  · simp [hv, sata_block_off, h]
  · simp [hv, lan_block_off, h]
  · simp [hv, xdci_block_off, h]
  · cases hc : P.CONFIG_SOC_INTEL_COMETLAKE
    · have h2 := fun w2 p (h3 : device_off_in w2.devices P.PCH_DEVFN_CNViWIFI) =>
        (cnvi_block_off P w2 p h3).2 hc
      simp [hv, h2, xdci_block_device_off, h]
    · have h2 := fun w2 p (h3 : device_off_in w2.devices P.PCH_DEVFN_CNViWIFI) =>
        (cnvi_block_off P w2 p h3).1 hc
      simp [hv, h2, xdci_block_device_off, h]
  · simp [hv, emmc_block_off, xdci_block_device_off, h]
  · simp [hv, sdcard_block_off, xdci_block_device_off, h]
  · simp [hv, ufs_block_off, xdci_block_device_off, h]

theorem C1_absent_or_disabled_device_is_disabled_witness :
    world_sample.SA_DEV_ROOT = some config_sample ∧ SerialIoFits cnl ∧ VrFrame callees_default ∧
    ∃ w2 upd, platform_fsp_silicon_init_params_cb cnl callees_default world_sample supd_sample =
        some (w2, upd) ∧
      (device_off world_sample cnl.PCH_DEVFN_SATA → upd.FspsConfig.field .SataEnable = 0) ∧
      (device_off world_sample cnl.PCH_DEVFN_GBE → upd.FspsConfig.field .PchLanEnable = 0) ∧
      (device_off world_sample cnl.PCH_DEVFN_USBOTG → upd.FspsConfig.field .XdciEnable = 0) ∧
      (device_off world_sample cnl.PCH_DEVFN_CNViWIFI →
        upd.FspsConfig.field
          (if cnl.CONFIG_SOC_INTEL_COMETLAKE then .CnviMode else .PchCnviMode) = 0) ∧
      (device_off world_sample cnl.PCH_DEVFN_EMMC → upd.FspsConfig.field .ScsEmmcEnabled = 0) ∧
      (device_off world_sample cnl.PCH_DEVFN_SDCARD →
        upd.FspsConfig.field .ScsSdCardEnabled = 0) ∧
      (device_off world_sample cnl.PCH_DEVFN_UFS → upd.FspsConfig.field .ScsUfsEnabled = 0) :=
  ⟨rfl, by decide, fun _ _ _ => ⟨_, rfl⟩,
   C1_absent_or_disabled_device_is_disabled cnl callees_default world_sample supd_sample
     config_sample rfl (by decide) (fun _ _ _ => ⟨_, rfl⟩)⟩

/-- C2: for every port index `i` and every configuration, a zero override leaves the default
in place. When `config->usb3_ports[i].tx_de_emp` is 0 both `Usb3HsioTxDeEmphEnable[i]` and
`Usb3HsioTxDeEmph[i]` keep the values the block held after `mainboard_silicon_init_params`, and
likewise `tx_downscale_amp = 0` leaves `Usb3HsioTxDownscaleAmpEnable[i]` and
`Usb3HsioTxDownscaleAmp[i]` unchanged. Each of `PchPmSlpS3MinAssert`, `PchPmSlpS4MinAssert`,
`PchPmSlpSusMinAssert` and `PchPmSlpAMinAssert` keeps that value when the configuration holds 0
and equals the configured value otherwise. The assumptions are those of C1. -/
theorem C2_zero_override_keeps_default (P : Platform) (E : Callees) (w : World)
    (supd : FSPS_UPD) (config : config_t) (i : Nat) (hroot : w.SA_DEV_ROOT = some config)
    (hfit : SerialIoFits P) (hvr : VrFrame E) :
    ∃ p0 w2 upd, params_after_mainboard P E w supd = some p0 ∧
      platform_fsp_silicon_init_params_cb P E w supd = some (w2, upd) ∧
      ((config.usb3_ports i).tx_de_emp = 0 →
        upd.FspsConfig.array .Usb3HsioTxDeEmphEnable i = p0.array .Usb3HsioTxDeEmphEnable i ∧
        upd.FspsConfig.array .Usb3HsioTxDeEmph i = p0.array .Usb3HsioTxDeEmph i) ∧
      ((config.usb3_ports i).tx_downscale_amp = 0 →
        upd.FspsConfig.array .Usb3HsioTxDownscaleAmpEnable i =
          p0.array .Usb3HsioTxDownscaleAmpEnable i ∧
        upd.FspsConfig.array .Usb3HsioTxDownscaleAmp i = p0.array .Usb3HsioTxDownscaleAmp i) ∧
      upd.FspsConfig.field .PchPmSlpS3MinAssert =
        (if config.PchPmSlpS3MinAssert = 0 then p0.field .PchPmSlpS3MinAssert
         else config.PchPmSlpS3MinAssert) ∧
      upd.FspsConfig.field .PchPmSlpS4MinAssert =
        (if config.PchPmSlpS4MinAssert = 0 then p0.field .PchPmSlpS4MinAssert
         else config.PchPmSlpS4MinAssert) ∧
      upd.FspsConfig.field .PchPmSlpSusMinAssert =
        (if config.PchPmSlpSusMinAssert = 0 then p0.field .PchPmSlpSusMinAssert
         else config.PchPmSlpSusMinAssert) ∧
      upd.FspsConfig.field .PchPmSlpAMinAssert =
        (if config.PchPmSlpAMinAssert = 0 then p0.field .PchPmSlpAMinAssert
         else config.PchPmSlpAMinAssert) := by
  obtain ⟨p0, hp0⟩ := params_after_mainboard_some P E w supd hfit
  unfold platform_fsp_silicon_init_params_cb
  simp only [hroot, hp0]
  have hv := fun c n p => (vr_loop_frame E hvr c n p).1
  have ha := fun c n p => (vr_loop_frame E hvr c n p).2
  refine ⟨p0, _, _, rfl, rfl, ?_, ?_, ?_, ?_, ?_, ?_⟩
  · intro h
    simp [ha, (usb3_loop_de_emph _ _ _ _).1, (usb3_loop_de_emph _ _ _ _).2, h]
  · intro h
    simp [ha, (usb3_loop_downscale _ _ _ _).1, (usb3_loop_downscale _ _ _ _).2, h]
  · rw [(min_assert_block_values _ _).1]
    simp [hv]
  · rw [(min_assert_block_values _ _).2.1]
    simp [hv]
  · rw [(min_assert_block_values _ _).2.2.1]
    simp [hv]
  · rw [(min_assert_block_values _ _).2.2.2]
    simp [hv]

theorem C2_zero_override_keeps_default_witness :
    world_sample.SA_DEV_ROOT = some config_sample ∧ SerialIoFits cnl ∧ VrFrame callees_default ∧
    ∃ p0 w2 upd, params_after_mainboard cnl callees_default world_sample supd_sample = some p0 ∧
      platform_fsp_silicon_init_params_cb cnl callees_default world_sample supd_sample =
        some (w2, upd) ∧
      ((config_sample.usb3_ports 0).tx_de_emp = 0 →
        upd.FspsConfig.array .Usb3HsioTxDeEmphEnable 0 = p0.array .Usb3HsioTxDeEmphEnable 0 ∧
        upd.FspsConfig.array .Usb3HsioTxDeEmph 0 = p0.array .Usb3HsioTxDeEmph 0) ∧
      ((config_sample.usb3_ports 0).tx_downscale_amp = 0 →
        upd.FspsConfig.array .Usb3HsioTxDownscaleAmpEnable 0 =
          p0.array .Usb3HsioTxDownscaleAmpEnable 0 ∧
        upd.FspsConfig.array .Usb3HsioTxDownscaleAmp 0 = p0.array .Usb3HsioTxDownscaleAmp 0) ∧
      upd.FspsConfig.field .PchPmSlpS3MinAssert =
        (if config_sample.PchPmSlpS3MinAssert = 0 then p0.field .PchPmSlpS3MinAssert
         else config_sample.PchPmSlpS3MinAssert) ∧
      upd.FspsConfig.field .PchPmSlpS4MinAssert =
        (if config_sample.PchPmSlpS4MinAssert = 0 then p0.field .PchPmSlpS4MinAssert
         else config_sample.PchPmSlpS4MinAssert) ∧
      upd.FspsConfig.field .PchPmSlpSusMinAssert =
        (if config_sample.PchPmSlpSusMinAssert = 0 then p0.field .PchPmSlpSusMinAssert
         else config_sample.PchPmSlpSusMinAssert) ∧
      upd.FspsConfig.field .PchPmSlpAMinAssert =
        (if config_sample.PchPmSlpAMinAssert = 0 then p0.field .PchPmSlpAMinAssert
         else config_sample.PchPmSlpAMinAssert) :=
  ⟨rfl, by decide, fun _ _ _ => ⟨_, rfl⟩,
   C2_zero_override_keeps_default cnl callees_default world_sample supd_sample config_sample 0 rfl
     (by decide) (fun _ _ _ => ⟨_, rfl⟩)⟩

/-- C3 (as stated, refuted): with only bit 12 of MSR 0xC0011029 set, the selector stores 2,
not 1, in `NumberOfElements`. -/
theorem C3_count_is_not_one :
    (msrsBit12 0xC0011029).testBit 12 = true ∧
    (GetF16KbMicrocodeEquivalenceTable msrsBit12 () priorOut ()).NumberOfElements = 2 ∧
    (GetF16KbMicrocodeEquivalenceTable msrsBit12 () priorOut ()).NumberOfElements ≠ 1 := by
  decide

/-- C3 (amended): for every value of MSR 0xC0011029 whose bit 12 is set, the selector stores the
fixed count 2 (the number of two-word entries of `stu1`) in `NumberOfElements`. -/
theorem C3_count_is_two {S H : Type} (msrs : Nat → Nat) (fs : S) (out : EquivalenceTableOut)
    (sh : H) (hbit : (msrs 0xC0011029).testBit 12 = true) :
    (GetF16KbMicrocodeEquivalenceTable msrs fs out sh).NumberOfElements = 2 := by
  rw [GetF16KbMicrocodeEquivalenceTable_eq, if_pos hbit]

theorem C3_count_is_two_witness :
    (msrsBit12 0xC0011029).testBit 12 = true ∧
    (GetF16KbMicrocodeEquivalenceTable msrsBit12 () priorOut ()).NumberOfElements = 2 :=
  ⟨by decide, C3_count_is_two msrsBit12 () priorOut () (by decide)⟩

/-- C4: the selector is a two-outcome decision on bit 12 of MSR 0xC0011029 alone. With the bit
clear both output locations keep their prior values; with the bit set the pointer is the fixed
table `stu1 = [0x7001, 0x7001, 0x7000, 0x7000]` and the count is 2; two calls that agree on bit 12
(and on the prior output) give the same result whatever the other MSR bits, the other MSRs and
the other two arguments are. -/
theorem C4_two_outcome_decision {S H : Type} (msrs : Nat → Nat) (fs : S)
    (out : EquivalenceTableOut) (sh : H) :
    ((msrs 0xC0011029).testBit 12 = false →
        GetF16KbMicrocodeEquivalenceTable msrs fs out sh = out) ∧
    ((msrs 0xC0011029).testBit 12 = true →
        GetF16KbMicrocodeEquivalenceTable msrs fs out sh =
          { KbEquivalenceTablePtr := ConstVoidPtr.rom [0x7001, 0x7001, 0x7000, 0x7000],
            NumberOfElements := 2 }) ∧
    (∀ (msrs2 : Nat → Nat) (fs2 : S) (sh2 : H),
        (msrs2 0xC0011029).testBit 12 = (msrs 0xC0011029).testBit 12 →
        GetF16KbMicrocodeEquivalenceTable msrs2 fs2 out sh2 =
          GetF16KbMicrocodeEquivalenceTable msrs fs out sh) := by
  refine ⟨?_, ?_, ?_⟩
  · intro h
    rw [GetF16KbMicrocodeEquivalenceTable_eq]; simp [h]
  · intro h
    rw [GetF16KbMicrocodeEquivalenceTable_eq, if_pos h]; rfl
  · intro msrs2 fs2 sh2 h
    rw [GetF16KbMicrocodeEquivalenceTable_eq, GetF16KbMicrocodeEquivalenceTable_eq, h]

theorem C4_two_outcome_decision_witness :
    GetF16KbMicrocodeEquivalenceTable msrsAllButBit12 () priorOut () = priorOut ∧
    GetF16KbMicrocodeEquivalenceTable msrsBit12 () priorOut () =
      { KbEquivalenceTablePtr := ConstVoidPtr.rom [0x7001, 0x7001, 0x7000, 0x7000],
        NumberOfElements := 2 } ∧
    GetF16KbMicrocodeEquivalenceTable (fun _ => 0xFFFFFFFFFFFFFFFF) (5 : Nat) priorOut (9 : Nat) =
      GetF16KbMicrocodeEquivalenceTable msrsBit12 (0 : Nat) priorOut (0 : Nat) :=
  ⟨(C4_two_outcome_decision msrsAllButBit12 () priorOut ()).1 (by decide),
   (C4_two_outcome_decision msrsBit12 () priorOut ()).2.1 (by decide),
   (C4_two_outcome_decision msrsBit12 (0 : Nat) priorOut (0 : Nat)).2.2
      (fun _ => 0xFFFFFFFFFFFFFFFF) 5 9 (by decide)⟩

/-- C5 (as stated, refuted): the callback leaves `PcieClkSrcUsage[0]` of the configuration
record at `PCIE_CLK_NOTUSED` (0xFF) where it held 0 before. -/
theorem C5_config_is_rewritten :
    world_sample.SA_DEV_ROOT.map (fun c => c.PcieClkSrcUsage 0) = some 0 ∧
    (platform_fsp_silicon_init_params_cb cnl callees_default world_sample supd_sample).map
      (fun r => r.1.SA_DEV_ROOT.map (fun c => c.PcieClkSrcUsage 0)) = some (some 0xFF) := by
  decide

/-- C5 (amended): for every configuration record and device table, the callback leaves every
member of the configuration record as it was except `PcieClkSrcUsage`, in which each of the
first `ARRAY_SIZE(config->PcieClkSrcUsage)` entries that is 0 becomes `PCIE_CLK_NOTUSED` and every
other entry keeps its value. -/
theorem C5_config_changes_only_unused_clock_sources (P : Platform) (E : Callees) (w : World)
    (supd : FSPS_UPD) (config : config_t) (hroot : w.SA_DEV_ROOT = some config)
    (hfit : SerialIoFits P) :
    ∃ w2 upd, platform_fsp_silicon_init_params_cb P E w supd = some (w2, upd) ∧
      w2.SA_DEV_ROOT = some { config with
        PcieClkSrcUsage := fun i =>
          if i < P.size_PcieClkSrcUsage ∧ config.PcieClkSrcUsage i = 0 then P.PCIE_CLK_NOTUSED
          else config.PcieClkSrcUsage i } := by
  obtain ⟨p0, hp0⟩ := params_after_mainboard_some P E w supd hfit
  unfold platform_fsp_silicon_init_params_cb
  simp only [hroot, hp0]
  exact ⟨_, _, rfl, by simp⟩

theorem C5_config_changes_only_unused_clock_sources_witness :
    world_sample.SA_DEV_ROOT = some config_sample ∧ SerialIoFits cnl ∧
    ∃ w2 upd, platform_fsp_silicon_init_params_cb cnl callees_default world_sample supd_sample =
        some (w2, upd) ∧
      w2.SA_DEV_ROOT = some { config_sample with
        PcieClkSrcUsage := fun i =>
          if i < cnl.size_PcieClkSrcUsage ∧ config_sample.PcieClkSrcUsage i = 0 then
            cnl.PCIE_CLK_NOTUSED
          else config_sample.PcieClkSrcUsage i } :=
  ⟨rfl, by decide,
   C5_config_changes_only_unused_clock_sources cnl callees_default world_sample supd_sample
     config_sample rfl (by decide)⟩

/-- C6 (as stated, refuted): with the xDCI device enabled in the tree and `xdci_can_enable()`
false, the callback leaves the `enabled` flag of that device at 0 where it was 1 before. -/
theorem C6_xdci_device_is_switched_off :
    (world_sample.devices 0 cnl.PCH_DEVFN_USBOTG).map (fun d => d.enabled) = some 1 ∧
    (platform_fsp_silicon_init_params_cb cnl callees_no_xdci world_sample supd_sample).map
      (fun r => (r.1.devices 0 cnl.PCH_DEVFN_USBOTG).map (fun d => d.enabled)) =
        some (some 0) := by
  decide

/-- C6 (amended): for every device table and every result of `xdci_can_enable`, the callback
leaves every node of the device tree as it was, except that when `xdci_can_enable()` is false
the xDCI device (`PCH_DEVFN_USBOTG` on bus 0), if present, has `enabled` set to 0. -/
theorem C6_only_xdci_device_may_be_switched_off (P : Platform) (E : Callees) (w : World)
    (supd : FSPS_UPD) (config : config_t) (hroot : w.SA_DEV_ROOT = some config)
    (hfit : SerialIoFits P) :
    ∃ w2 upd, platform_fsp_silicon_init_params_cb P E w supd = some (w2, upd) ∧
      ∀ bus devfn, w2.devices bus devfn =
        if bus = 0 ∧ devfn = P.PCH_DEVFN_USBOTG ∧ E.xdci_can_enable = false then
          (w.devices bus devfn).map fun dev => { dev with enabled := 0 }
        else w.devices bus devfn := by
  obtain ⟨p0, hp0⟩ := params_after_mainboard_some P E w supd hfit
  unfold platform_fsp_silicon_init_params_cb
  simp only [hroot, hp0]
  refine ⟨_, _, rfl, ?_⟩
  intro bus devfn
  simp only [xdci_block_devices]

theorem C6_only_xdci_device_may_be_switched_off_witness :
    world_sample.SA_DEV_ROOT = some config_sample ∧ SerialIoFits cnl ∧
    ∃ w2 upd, platform_fsp_silicon_init_params_cb cnl callees_no_xdci world_sample supd_sample =
        some (w2, upd) ∧
      ∀ bus devfn, w2.devices bus devfn =
        if bus = 0 ∧ devfn = cnl.PCH_DEVFN_USBOTG ∧ callees_no_xdci.xdci_can_enable = false then
          (world_sample.devices bus devfn).map fun dev => { dev with enabled := 0 }
        else world_sample.devices bus devfn :=
  ⟨rfl, by decide,
   C6_only_xdci_device_may_be_switched_off cnl callees_no_xdci world_sample supd_sample
     config_sample rfl (by decide)⟩

/-- C7 (evaluation at the failing input): when the root device is missing, `parse_devicetree`
returns early and leaves every member of the block unchanged, but the callback itself reads
`chip_info` through the missing device before it calls `parse_devicetree`, and so does not
complete. -/
theorem C7_missing_root_is_dereferenced (P : Platform) (E : Callees) (w : World)
    (supd : FSPS_UPD) (hroot : w.SA_DEV_ROOT = none) :
    parse_devicetree P w supd.FspsConfig = some supd.FspsConfig ∧
    platform_fsp_silicon_init_params_cb P E w supd = none := by
  unfold parse_devicetree platform_fsp_silicon_init_params_cb
  simp [hroot]

theorem C7_missing_root_is_dereferenced_witness :
    world_no_root.SA_DEV_ROOT = none ∧
    parse_devicetree cnl world_no_root supd_sample.FspsConfig = some supd_sample.FspsConfig ∧
    platform_fsp_silicon_init_params_cb cnl callees_default world_no_root supd_sample = none :=
  ⟨rfl, C7_missing_root_is_dereferenced cnl callees_default world_no_root supd_sample rfl⟩

/-- C8: for every configuration and every index `k` within `serial_io_dev`,
`get_param_value` returns the FSP value (enum value minus 1) of `PchSerialIoDisabled` when the
device `serial_io_dev[k]` is absent or not enabled; otherwise of `PchSerialIoPci` when
`config->SerialIoDevMode[k]` is `PchSerialIoNotInitialized` or at least `PchSerialIoMax`;
otherwise of `config->SerialIoDevMode[k]` itself. The subtraction never underflows, the result
is at most `PchSerialIoMax - 2`, and `parse_devicetree_param` stores exactly this value in the
element of the block that belongs to index `k`. The enum is assumed to count its valid modes
from 1 below `PchSerialIoMax`, with `PchSerialIoNotInitialized = 0`. -/
theorem C8_get_param_value (P : Platform) (w : World) (config : config_t) (k : Nat)
    (params : FSP_S_CONFIG) (hk : k < (serial_io_dev P).length) (henum : SerialIoEnumOk P)
    (hfit : SerialIoFits P) :
    ∃ devfn v params2, (serial_io_dev P)[k]? = some devfn ∧
      get_param_value P w config k = some v ∧
      (device_off w devfn → (v : Int) = (P.PchSerialIoDisabled : Int) - 1) ∧
      (¬ device_off w devfn →
        (config.SerialIoDevMode k = P.PchSerialIoNotInitialized ∨
          config.SerialIoDevMode k ≥ P.PchSerialIoMax) →
        (v : Int) = (P.PchSerialIoPci : Int) - 1) ∧
      (¬ device_off w devfn →
        ¬ (config.SerialIoDevMode k = P.PchSerialIoNotInitialized ∨
          config.SerialIoDevMode k ≥ P.PchSerialIoMax) →
        (v : Int) = (config.SerialIoDevMode k : Int) - 1) ∧
      v + 2 ≤ P.PchSerialIoMax ∧
      parse_devicetree_param P w config params = some params2 ∧
      serial_io_slot P params2 k =
        if P.CONFIG_SOC_INTEL_COMETLAKE = true ∧
            P.CONFIG_SOC_INTEL_I2C_DEV_MAX + P.CONFIG_SOC_INTEL_COMMON_BLOCK_GSPI_MAX +
              P.SOC_INTEL_CML_UART_DEV_MAX ≤ k then none
        else some v := by
  obtain ⟨h0, hd1, hd2, hp1, hp2, hmax⟩ := henum
  obtain ⟨q, hq, -, hslot⟩ := parse_devicetree_param_spec P w config params hfit
  have hdev : (serial_io_dev P)[k]? = some ((serial_io_dev P)[k]) := List.getElem?_eq_getElem hk
  have hdis : toUint8 (PCH_SERIAL_IO_INDEX (P.PchSerialIoDisabled : Int)) =
      P.PchSerialIoDisabled - 1 := by
    unfold toUint8 PCH_SERIAL_IO_INDEX; omega
  have hpci : toUint8 (PCH_SERIAL_IO_INDEX (P.PchSerialIoPci : Int)) = P.PchSerialIoPci - 1 := by
    unfold toUint8 PCH_SERIAL_IO_INDEX; omega
  have hmode : ∀ m : Nat, 0 < m → m < P.PchSerialIoMax →
      toUint8 (PCH_SERIAL_IO_INDEX (m : Int)) = m - 1 := by
    intro m h1 h2
    unfold toUint8 PCH_SERIAL_IO_INDEX; omega
  have hgpv : ∃ v, get_param_value P w config k = some v ∧
      (device_off w (serial_io_dev P)[k] → v = P.PchSerialIoDisabled - 1) ∧
      (¬ device_off w (serial_io_dev P)[k] →
        (config.SerialIoDevMode k = P.PchSerialIoNotInitialized ∨
          config.SerialIoDevMode k ≥ P.PchSerialIoMax) → v = P.PchSerialIoPci - 1) ∧
      (¬ device_off w (serial_io_dev P)[k] →
        ¬ (config.SerialIoDevMode k = P.PchSerialIoNotInitialized ∨
          config.SerialIoDevMode k ≥ P.PchSerialIoMax) →
        v = config.SerialIoDevMode k - 1 ∧ 0 < config.SerialIoDevMode k ∧
          config.SerialIoDevMode k < P.PchSerialIoMax) := by
    unfold get_param_value
    rw [hdev]
    dsimp only
    cases hfind : dev_find_slot w 0 (serial_io_dev P)[k] with
    | none =>
      have hoff : device_off w (serial_io_dev P)[k] := Or.inl hfind
      exact ⟨_, rfl, fun _ => hdis, fun h => absurd hoff h, fun h => absurd hoff h⟩
    | some dev =>
      dsimp only
      by_cases hen : dev.enabled = 0
      · have hoff : device_off w (serial_io_dev P)[k] := Or.inr ⟨dev, hfind, hen⟩
        rw [if_pos hen]
        exact ⟨_, rfl, fun _ => hdis, fun h => absurd hoff h, fun h => absurd hoff h⟩
      · have hon : ¬ device_off w (serial_io_dev P)[k] := by
          rintro (h | ⟨d, h1, h2⟩)
          · rw [h] at hfind; cases hfind
          · rw [h1] at hfind; cases hfind; exact hen h2
        rw [if_neg hen]
        by_cases hbad : config.SerialIoDevMode k ≥ P.PchSerialIoMax ∨
            config.SerialIoDevMode k = P.PchSerialIoNotInitialized
        · rw [if_pos hbad]
          exact ⟨_, rfl, fun h => absurd h hon, fun _ _ => hpci,
            fun _ h => absurd (Or.symm hbad) h⟩
        · rw [if_neg hbad]
          have hpos : 0 < config.SerialIoDevMode k ∧
              config.SerialIoDevMode k < P.PchSerialIoMax := by
            rw [h0] at hbad
            omega
          exact ⟨_, rfl, fun h => absurd h hon, fun _ h => absurd (Or.symm h) hbad,
            fun _ _ => ⟨hmode _ hpos.1 hpos.2, hpos⟩⟩
  obtain ⟨v, hv, c1, c2, c3⟩ := hgpv
  refine ⟨_, v, q, hdev, hv, ?_, ?_, ?_, ?_, hq, ?_⟩
  · intro h
    rw [c1 h]; omega
  · intro h1 h2
    rw [c2 h1 h2]; omega
  · intro h1 h2
    obtain ⟨e, e1, e2⟩ := c3 h1 h2
    rw [e]; omega
  · by_cases hoff : device_off w (serial_io_dev P)[k]
    · rw [c1 hoff]; omega
    · by_cases hbad : config.SerialIoDevMode k = P.PchSerialIoNotInitialized ∨
          config.SerialIoDevMode k ≥ P.PchSerialIoMax
      · rw [c2 hoff hbad]; omega
      · obtain ⟨e, e1, e2⟩ := c3 hoff hbad
        rw [e]; omega
  · have hs := hslot k hk
    rw [hv] at hs
    unfold serial_io_slot at hs ⊢
    cases hc : P.CONFIG_SOC_INTEL_COMETLAKE
    · simp only [hc, Bool.false_eq_true, if_false, false_and] at hs ⊢
      rw [hs _ rfl]
    · simp only [hc, if_true, true_and] at hs ⊢
      split_ifs at hs ⊢ with h1 h2 h3 h4 h5 h6 <;>
        first
        | rfl
        | (exfalso; omega)
        | (rw [hs _ rfl])

theorem C8_get_param_value_witness :
    0 < (serial_io_dev cnl).length ∧ SerialIoEnumOk cnl ∧ SerialIoFits cnl ∧
    ∃ devfn v params2, (serial_io_dev cnl)[0]? = some devfn ∧
      get_param_value cnl world_sample config_sample 0 = some v ∧
      (device_off world_sample devfn → (v : Int) = (cnl.PchSerialIoDisabled : Int) - 1) ∧
      (¬ device_off world_sample devfn →
        (config_sample.SerialIoDevMode 0 = cnl.PchSerialIoNotInitialized ∨
          config_sample.SerialIoDevMode 0 ≥ cnl.PchSerialIoMax) →
        (v : Int) = (cnl.PchSerialIoPci : Int) - 1) ∧
      (¬ device_off world_sample devfn →
        ¬ (config_sample.SerialIoDevMode 0 = cnl.PchSerialIoNotInitialized ∨
          config_sample.SerialIoDevMode 0 ≥ cnl.PchSerialIoMax) →
        (v : Int) = (config_sample.SerialIoDevMode 0 : Int) - 1) ∧
      v + 2 ≤ cnl.PchSerialIoMax ∧
      parse_devicetree_param cnl world_sample config_sample supd_sample.FspsConfig =
        some params2 ∧
      serial_io_slot cnl params2 0 =
        if cnl.CONFIG_SOC_INTEL_COMETLAKE = true ∧
            cnl.CONFIG_SOC_INTEL_I2C_DEV_MAX + cnl.CONFIG_SOC_INTEL_COMMON_BLOCK_GSPI_MAX +
              cnl.SOC_INTEL_CML_UART_DEV_MAX ≤ 0 then none
        else some v :=
  ⟨by decide, by decide, by decide,
   C8_get_param_value cnl world_sample config_sample 0 supd_sample.FspsConfig (by decide)
     (by decide) (by decide)⟩

/-- C9 (as stated, refuted): with `psys_pmax` = 8192 W and a 16-bit `PsysPmax`, the callback
stores 0 in `PsysPmax`, not 8 * 8192 = 65536. -/
theorem C9_psys_pmax_wraps :
    world_sample.SA_DEV_ROOT.map (fun c => c.psys_pmax) = some 8192 ∧
    (platform_fsp_silicon_init_params_cb cnl callees_default world_sample supd_sample).map
      (fun r => r.2.FspsTestConfig.PsysPmax) = some 0 ∧
    (0 : Nat) ≠ 8 * 8192 := by
  decide

/-- C9 (amended): `PsysPmax` is emitted in units of 1/8 Watt, reduced to the width of the
member. For every configuration with non-zero `psys_pmax` the callback leaves `PsysPmax` equal
to `8 * psys_pmax` modulo `2 ^ PsysPmax_bits`, which is exactly `8 * psys_pmax` whenever that
product is below `2 ^ PsysPmax_bits`; for `psys_pmax = 0` the member is left unchanged. -/
theorem C9_psys_pmax_in_eighths_of_a_watt (P : Platform) (E : Callees) (w : World)
    (supd : FSPS_UPD) (config : config_t) (hroot : w.SA_DEV_ROOT = some config)
    (hfit : SerialIoFits P) :
    ∃ w2 upd, platform_fsp_silicon_init_params_cb P E w supd = some (w2, upd) ∧
      (config.psys_pmax ≠ 0 →
        upd.FspsTestConfig.PsysPmax = (8 * config.psys_pmax) % 2 ^ P.PsysPmax_bits) ∧
      (config.psys_pmax ≠ 0 → 8 * config.psys_pmax < 2 ^ P.PsysPmax_bits →
        upd.FspsTestConfig.PsysPmax = 8 * config.psys_pmax) ∧
      (config.psys_pmax = 0 → upd.FspsTestConfig.PsysPmax = supd.FspsTestConfig.PsysPmax) := by
  obtain ⟨p0, hp0⟩ := params_after_mainboard_some P E w supd hfit
  unfold platform_fsp_silicon_init_params_cb
  simp only [hroot, hp0]
  refine ⟨_, _, rfl, ?_, ?_, ?_⟩
  · intro h
    simp [psys_pmax_block, h, Nat.mul_comm]
  · intro h h2
    have h3 : config.psys_pmax * 8 < 2 ^ P.PsysPmax_bits := by omega
    simp [psys_pmax_block, h, Nat.mod_eq_of_lt h3, Nat.mul_comm]
  · intro h
    simp [psys_pmax_block, h]

theorem C9_psys_pmax_in_eighths_of_a_watt_witness :
    world_45w.SA_DEV_ROOT = some config_45w ∧ SerialIoFits cnl ∧
    ∃ w2 upd, platform_fsp_silicon_init_params_cb cnl callees_default world_45w supd_sample =
        some (w2, upd) ∧
      (config_45w.psys_pmax ≠ 0 →
        upd.FspsTestConfig.PsysPmax = (8 * config_45w.psys_pmax) % 2 ^ cnl.PsysPmax_bits) ∧
      (config_45w.psys_pmax ≠ 0 → 8 * config_45w.psys_pmax < 2 ^ cnl.PsysPmax_bits →
        upd.FspsTestConfig.PsysPmax = 8 * config_45w.psys_pmax) ∧
      (config_45w.psys_pmax = 0 →
        upd.FspsTestConfig.PsysPmax = supd_sample.FspsTestConfig.PsysPmax) :=
  ⟨rfl, by decide,
   C9_psys_pmax_in_eighths_of_a_watt cnl callees_default world_45w supd_sample config_45w rfl
     (by decide)⟩

/-- C10: the callback touches the PMC register `LTR_IGN` only when the GbE device is found in
the device tree and `config->s0ix_enable` is non-zero. In that case the register space is the
one `ignore_gbe_ltr` leaves, in every other case it is unchanged. `ignore_gbe_ltr` writes back
the value read OR `IGN_GBE` (as a byte) and changes no other address, so every bit of `IGN_GBE`
is set in the register and every other bit of the register is preserved, and applying
`ignore_gbe_ltr` twice gives the same register space as applying it once. -/
theorem C10_ltr_ign_read_modify_write (P : Platform) (E : Callees) (w : World)
    (supd : FSPS_UPD) (config : config_t) (hroot : w.SA_DEV_ROOT = some config)
    (hfit : SerialIoFits P) :
    (∃ w2 upd, platform_fsp_silicon_init_params_cb P E w supd = some (w2, upd) ∧
      w2.mmio =
        if (dev_find_slot w 0 P.PCH_DEVFN_GBE).isSome = true ∧ config.s0ix_enable ≠ 0 then
          ignore_gbe_ltr P E w.mmio
        else w.mmio) ∧
    read8 (ignore_gbe_ltr P E w.mmio) (E.pmc_mmio_regs + P.LTR_IGN) =
      (read8 w.mmio (E.pmc_mmio_regs + P.LTR_IGN) ||| P.IGN_GBE) % 256 ∧
    (∀ i, i < 8 →
      (read8 (ignore_gbe_ltr P E w.mmio) (E.pmc_mmio_regs + P.LTR_IGN)).testBit i =
        ((read8 w.mmio (E.pmc_mmio_regs + P.LTR_IGN)).testBit i || P.IGN_GBE.testBit i)) ∧
    (∀ addr, addr ≠ E.pmc_mmio_regs + P.LTR_IGN →
      ignore_gbe_ltr P E w.mmio addr = w.mmio addr) ∧
    ignore_gbe_ltr P E (ignore_gbe_ltr P E w.mmio) = ignore_gbe_ltr P E w.mmio := by
  refine ⟨?_, ignore_gbe_ltr_read P E w.mmio, ?_, ignore_gbe_ltr_other P E w.mmio,
    ignore_gbe_ltr_idem P E w.mmio⟩
  · obtain ⟨p0, hp0⟩ := params_after_mainboard_some P E w supd hfit
    unfold platform_fsp_silicon_init_params_cb
    simp only [hroot, hp0]
    refine ⟨_, _, rfl, ?_⟩
    simp only [xdci_block_mmio, lan_block_mmio]
  · intro i hi
    rw [ignore_gbe_ltr_read]
    have h : (256 : Nat) = 2 ^ 8 := by norm_num
    rw [h, Nat.testBit_mod_two_pow, Nat.testBit_or]
    simp [hi]

theorem C10_ltr_ign_read_modify_write_witness :
    world_sample.SA_DEV_ROOT = some config_sample ∧ SerialIoFits cnl ∧
    ((∃ w2 upd, platform_fsp_silicon_init_params_cb cnl callees_default world_sample supd_sample =
        some (w2, upd) ∧
      w2.mmio =
        if (dev_find_slot world_sample 0 cnl.PCH_DEVFN_GBE).isSome = true ∧
            config_sample.s0ix_enable ≠ 0 then
          ignore_gbe_ltr cnl callees_default world_sample.mmio
        else world_sample.mmio) ∧
    read8 (ignore_gbe_ltr cnl callees_default world_sample.mmio)
        (callees_default.pmc_mmio_regs + cnl.LTR_IGN) =
      (read8 world_sample.mmio (callees_default.pmc_mmio_regs + cnl.LTR_IGN) ||| cnl.IGN_GBE) % 256 ∧
    (∀ i, i < 8 →
      (read8 (ignore_gbe_ltr cnl callees_default world_sample.mmio)
          (callees_default.pmc_mmio_regs + cnl.LTR_IGN)).testBit i =
        ((read8 world_sample.mmio (callees_default.pmc_mmio_regs + cnl.LTR_IGN)).testBit i ||
          cnl.IGN_GBE.testBit i)) ∧
    (∀ addr, addr ≠ callees_default.pmc_mmio_regs + cnl.LTR_IGN →
      ignore_gbe_ltr cnl callees_default world_sample.mmio addr = world_sample.mmio addr) ∧
    ignore_gbe_ltr cnl callees_default (ignore_gbe_ltr cnl callees_default world_sample.mmio) =
      ignore_gbe_ltr cnl callees_default world_sample.mmio) :=
  ⟨rfl, by decide,
   C10_ltr_ign_read_modify_write cnl callees_default world_sample supd_sample config_sample rfl
     (by decide)⟩
